/-
  Verification of the myyaml library (src/myyaml.c) against its specification.

  This file contains a shallow embedding of the core text-to-tree pipeline of
  the library: the reader (UTF decoding with control-character validation),
  the scanner (tokens, indentation stack, simple keys), the parser (token to
  event state machine), the composer/loader (events to node arena), the
  document accessors, and the emitter event-accumulation logic.

  Modelling conventions:
  - C byte strings are `List Nat` (octet values 0..255).
  - C `size_t` counters are `Nat`; C `int` values that can be negative
    (indentation levels, node ids in some places) are `Int`.
  - Growable stacks are Lean lists with push appending at the tail (so list
    order equals the C `start .. top` iteration order); queues are lists with
    the head at the front.
  - Memory allocation never fails in the model, so `YAML_MEMORY_ERROR` only
    arises from `STACK_LIMIT` (which uses it to signal a size bound).
  - Loops that consume input are written as fuel-indexed recursions; running
    out of fuel is a distinguished outcome (`Res.outOfFuel`) that never occurs
    when the fuel exceeds the input length (all concrete evaluations below use
    ample fuel).
  - The process-wide global `MAX_NESTING_LEVEL` (default 1000, settable via
    `yaml_set_max_nest_level`) is threaded as an explicit `maxNest` argument.
-/
import Mathlib

namespace Myyaml

/-- Encoding enum, from `YamlEncoding` in myyaml.h. -/
inductive YamlEncoding
| anyEncoding
| utf8
| utf16le
| utf16be
deriving DecidableEq, Repr

/-- Error kinds, from `YamlErrorType` in myyaml.h. -/
inductive YamlErrorType
| noError
| memoryError
| readerError
| scannerError
| parserError
| composerError
| writerError
| emitterError
deriving DecidableEq, Repr

/-- Source position, from `YamlMark` in myyaml.h. -/
structure YamlMark where
  index : Nat
  line : Nat
  column : Nat
deriving DecidableEq, Repr

/-- Scalar styles, from `YamlScalarStyle`. -/
inductive YamlScalarStyle
| anyStyle
| plain
| singleQuoted
| doubleQuoted
| literal
| folded
deriving DecidableEq, Repr

/-- Sequence styles, from `YamlSequenceStyle`. -/
inductive YamlSequenceStyle
| anyStyle
| block
| flow
deriving DecidableEq, Repr

/-- Mapping styles, from `YamlMappingStyle`. -/
inductive YamlMappingStyle
| block
| flow
| anyStyle
deriving DecidableEq, Repr

/-- Token kinds, from `YamlTokenType`. -/
inductive YamlTokenType
| noToken
| streamStart
| streamEnd
| versionDirective
| tagDirective
| documentStart
| documentEnd
| blockSequenceStart
| blockMappingStart
| blockEnd
| flowSequenceStart
| flowSequenceEnd
| flowMappingStart
| flowMappingEnd
| blockEntry
| flowEntry
| keyTok
| valueTok
| aliasTok
| anchorTok
| tagTok
| scalarTok
deriving DecidableEq, Repr

/-- The data union of `YamlToken`. -/
inductive YamlTokenData
| noData
| streamStart (encoding : YamlEncoding)
| aliasTok (value : List Nat)
| anchorTok (value : List Nat)
| tagTok (handle : List Nat) (suffix : List Nat)
| scalarTok (value : List Nat) (length : Nat) (style : YamlScalarStyle)
| versionDirective (major : Int) (minor : Int)
| tagDirective (handle : List Nat) (pfx : List Nat)
deriving DecidableEq, Repr

/-- Token structure: kind, data union, and the two position marks. -/
structure YamlToken where
  ttype : YamlTokenType
  data : YamlTokenData
  start_mark : YamlMark
  end_mark : YamlMark
deriving DecidableEq, Repr

/-- `%YAML` version directive payload. -/
structure YamlVersionDirective where
  major : Int
  minor : Int
deriving DecidableEq, Repr

/-- `%TAG` directive payload; `pfx` models the C field `prefix`. -/
structure YamlTagDirective where
  handle : List Nat
  pfx : List Nat
deriving DecidableEq, Repr

/-- Event kinds, from `YamlEventType`. -/
inductive YamlEventType
| noEvent
| streamStart
| streamEnd
| documentStart
| documentEnd
| aliasEv
| scalar
| sequenceStart
| sequenceEnd
| mappingStart
| mappingEnd
deriving DecidableEq, Repr

/-- The data union of `YamlEvent`. -/
inductive YamlEventData
| noData
| streamStart (encoding : YamlEncoding)
| documentStart (version_directive : Option YamlVersionDirective)
    (tag_directives : List YamlTagDirective) (implicit : Bool)
| documentEnd (implicit : Bool)
| aliasEv (anchor : List Nat)
| scalar (anchor : Option (List Nat)) (tag : Option (List Nat))
    (value : List Nat) (length : Nat)
    (plain_implicit : Bool) (quoted_implicit : Bool) (style : YamlScalarStyle)
| sequenceStart (anchor : Option (List Nat)) (tag : Option (List Nat))
    (implicit : Bool) (style : YamlSequenceStyle)
| sequenceEnd
| mappingStart (anchor : Option (List Nat)) (tag : Option (List Nat))
    (implicit : Bool) (style : YamlMappingStyle)
| mappingEnd
deriving DecidableEq, Repr

/-- Event structure: kind, data union, and the two position marks. -/
structure YamlEvent where
  etype : YamlEventType
  data : YamlEventData
  start_mark : YamlMark
  end_mark : YamlMark
deriving DecidableEq, Repr

/-- Node kinds, from `YamlNodeType`. -/
inductive YamlNodeType
| noNode
| scalar
| sequence
| mapping
deriving DecidableEq, Repr

/-- A key/value pair of node ids inside a mapping node (`YamlNodePair`). -/
structure YamlNodePair where
  key : Nat
  value : Nat
deriving DecidableEq, Repr

/-- The data union of `YamlNode`. -/
inductive YamlNodeData
| noData
| scalar (value : List Nat) (length : Nat) (style : YamlScalarStyle)
| sequence (items : List Nat) (style : YamlSequenceStyle)
| mapping (pairs : List YamlNodePair) (style : YamlMappingStyle)
deriving DecidableEq, Repr

/-- Node structure: kind, tag, data union, position marks. -/
structure YamlNode where
  ntype : YamlNodeType
  tag : List Nat
  data : YamlNodeData
  start_mark : YamlMark
  end_mark : YamlMark
deriving DecidableEq, Repr

/-- Document structure: the node arena (1-indexed by node id) plus
document-level directives and implicit flags. -/
structure YamlDocument where
  nodes : List YamlNode
  version_directive : Option YamlVersionDirective
  tag_directives : List YamlTagDirective
  start_implicit : Bool
  end_implicit : Bool
  start_mark : YamlMark
  end_mark : YamlMark
deriving DecidableEq, Repr

/-- Simple key candidate, from `YamlSimpleKey`. -/
structure YamlSimpleKey where
  token_number : Nat
  mark : YamlMark
  possible : Bool
  required : Bool
deriving DecidableEq, Repr

/-- Anchor registry entry, from `YamlAliasData`. -/
structure YamlAliasData where
  anchor : List Nat
  mark : YamlMark
  index : Nat
deriving DecidableEq, Repr

/-- Parser states, from `YamlParserState`. -/
inductive YamlParserState
| streamStart
| implicitDocumentStart
| documentStart
| documentContent
| documentEnd
| blockNode
| blockNodeOrIndentlessSequence
| flowNode
| blockSequenceFirstEntry
| blockSequenceEntry
| indentlessSequenceEntry
| blockMappingFirstKey
| blockMappingKey
| blockMappingValue
| flowSequenceFirstEntry
| flowSequenceEntry
| flowSequenceEntryMappingKey
| flowSequenceEntryMappingValue
| flowSequenceEntryMappingEnd
| flowMappingFirstKey
| flowMappingKey
| flowMappingValue
| flowMappingEmptyValue
| endState
deriving DecidableEq, Repr

/-- The zero mark (all positions 0). -/
def zeroMark : YamlMark := ⟨0, 0, 0⟩

/-- The parser object, from `YamlParser` in myyaml.h.  The working buffer is
the list of decoded-but-unconsumed octets (`buffer.pointer .. buffer.last`);
`raw` is the not-yet-decoded input (raw buffer plus remaining string input,
which for the string read handler behave as one stream of octets). -/
structure YamlParser where
  error : YamlErrorType
  problem : String
  problem_mark : YamlMark
  context : Option String
  context_mark : YamlMark
  problem_offset : Nat
  problem_value : Int
  raw : List Nat
  eof : Bool
  buffer : List Nat
  unread : Nat
  encoding : YamlEncoding
  offset : Nat
  mark : YamlMark
  stream_start_produced : Bool
  stream_end_produced : Bool
  flow_level : Nat
  tokens : List YamlToken
  tokens_parsed : Nat
  token_available : Bool
  indents : List Int
  simple_key_allowed : Bool
  indent : Int
  simple_keys : List YamlSimpleKey
  states : List YamlParserState
  state : YamlParserState
  marks : List YamlMark
  tag_directives : List YamlTagDirective
  aliases : List YamlAliasData
  document : YamlDocument
deriving DecidableEq, Repr

/-- The empty document (all-zero `YamlDocument` after `memset`). -/
def emptyDocument : YamlDocument :=
  { nodes := [], version_directive := none, tag_directives := []
    start_implicit := false, end_implicit := false
    start_mark := zeroMark, end_mark := zeroMark }

/-- Parser state after `yaml_parser_initialize` followed by
`yaml_parser_set_input_string input len`: everything zeroed, with the raw
input installed. -/
def initParser (input : List Nat) : YamlParser :=
  { error := .noError, problem := "", problem_mark := zeroMark
    context := none, context_mark := zeroMark
    problem_offset := 0, problem_value := 0
    raw := input, eof := false, buffer := [], unread := 0
    encoding := .anyEncoding, offset := 0, mark := zeroMark
    stream_start_produced := false, stream_end_produced := false
    flow_level := 0, tokens := [], tokens_parsed := 0, token_available := false
    indents := [], simple_key_allowed := false, indent := 0
    simple_keys := [], states := [], state := .streamStart
    marks := [], tag_directives := [], aliases := []
    document := emptyDocument }

/-- UTF-8 encoding of a code point (used by `strBytes`). -/
def utf8EncodeNat (value : Nat) : List Nat :=
  if value ≤ 0x7F then [value]
  else if value ≤ 0x7FF then
    [0xC0 + (value >>> 6), 0x80 + (value &&& 0x3F)]
  else if value ≤ 0xFFFF then
    [0xE0 + (value >>> 12), 0x80 + ((value >>> 6) &&& 0x3F),
     0x80 + (value &&& 0x3F)]
  else
    [0xF0 + (value >>> 18), 0x80 + ((value >>> 12) &&& 0x3F),
     0x80 + ((value >>> 6) &&& 0x3F), 0x80 + (value &&& 0x3F)]

/-- Bytes of a Lean string literal, UTF-8 encoded (helper for stating
concrete inputs and comparisons). -/
def strBytes (s : String) : List Nat :=
  s.data.flatMap fun c => utf8EncodeNat c.toNat

end Myyaml

namespace Myyaml

/-! ### Octet classification (the `IS_*`/`CHECK_*` macros of myyaml.c)

The working buffer holds UTF-8 octets; positions past the filled region read
as 0, matching the zero-filled buffer tail the macros rely on. -/

/-- Octet at a byte offset in a buffer (`(string).pointer[offset]`). -/
def octetAt (s : List Nat) (off : Nat) : Nat := s.getD off 0

/-- `CHECK_AT`: the octet at the offset equals the given value. -/
def check_at (s : List Nat) (c : Nat) (off : Nat) : Bool := octetAt s off == c

/-- `IS_ALPHA_AT`: alphanumeric, `_`, or `-`. -/
def is_alpha_at (s : List Nat) (off : Nat) : Bool :=
  let o := octetAt s off
  decide ((48 ≤ o ∧ o ≤ 57) ∨ (65 ≤ o ∧ o ≤ 90) ∨ (97 ≤ o ∧ o ≤ 122) ∨
    o = 95 ∨ o = 45)

/-- `IS_DIGIT_AT`. -/
def is_digit_at (s : List Nat) (off : Nat) : Bool :=
  let o := octetAt s off
  decide (48 ≤ o ∧ o ≤ 57)

/-- `AS_DIGIT_AT`. -/
def as_digit_at (s : List Nat) (off : Nat) : Nat := octetAt s off - 48

/-- `IS_HEX_AT`. -/
def is_hex_at (s : List Nat) (off : Nat) : Bool :=
  let o := octetAt s off
  decide ((48 ≤ o ∧ o ≤ 57) ∨ (65 ≤ o ∧ o ≤ 70) ∨ (97 ≤ o ∧ o ≤ 102))

/-- `AS_HEX_AT`. -/
def as_hex_at (s : List Nat) (off : Nat) : Nat :=
  let o := octetAt s off
  if 65 ≤ o ∧ o ≤ 70 then o - 65 + 10
  else if 97 ≤ o ∧ o ≤ 102 then o - 97 + 10
  else o - 48

/-- `IS_Z_AT`: NUL. -/
def is_z_at (s : List Nat) (off : Nat) : Bool := check_at s 0 off

/-- `IS_BOM_AT`: UTF-8 encoded BOM (#xFEFF). -/
def is_bom_at (s : List Nat) (off : Nat) : Bool :=
  check_at s 0xEF off && check_at s 0xBB (off + 1) && check_at s 0xBF (off + 2)

/-- `IS_SPACE_AT`. -/
def is_space_at (s : List Nat) (off : Nat) : Bool := check_at s 32 off

/-- `IS_TAB_AT`. -/
def is_tab_at (s : List Nat) (off : Nat) : Bool := check_at s 9 off

/-- `IS_BLANK_AT`: space or tab. -/
def is_blank_at (s : List Nat) (off : Nat) : Bool :=
  is_space_at s off || is_tab_at s off

/-- `IS_BREAK_AT`: CR, LF, NEL, LS, or PS. -/
def is_break_at (s : List Nat) (off : Nat) : Bool :=
  check_at s 13 off || check_at s 10 off ||
  (check_at s 0xC2 off && check_at s 0x85 (off + 1)) ||
  (check_at s 0xE2 off && check_at s 0x80 (off + 1) &&
    check_at s 0xA8 (off + 2)) ||
  (check_at s 0xE2 off && check_at s 0x80 (off + 1) &&
    check_at s 0xA9 (off + 2))

/-- `IS_CRLF_AT`. -/
def is_crlf_at (s : List Nat) (off : Nat) : Bool :=
  check_at s 13 off && check_at s 10 (off + 1)

/-- `IS_BREAKZ_AT`: line break or NUL. -/
def is_breakz_at (s : List Nat) (off : Nat) : Bool :=
  is_break_at s off || is_z_at s off

/-- `IS_SPACEZ_AT`. -/
def is_spacez_at (s : List Nat) (off : Nat) : Bool :=
  is_space_at s off || is_breakz_at s off

/-- `IS_BLANKZ_AT`: blank, line break, or NUL. -/
def is_blankz_at (s : List Nat) (off : Nat) : Bool :=
  is_blank_at s off || is_breakz_at s off

/-- `WIDTH_AT`: UTF-8 width of the character beginning at the offset. -/
def width_at (s : List Nat) (off : Nat) : Nat :=
  let o := octetAt s off
  if o &&& 0x80 == 0x00 then 1
  else if o &&& 0xE0 == 0xC0 then 2
  else if o &&& 0xF0 == 0xE0 then 3
  else if o &&& 0xF8 == 0xF0 then 4
  else 0

/-- Insertion into a queue at a given index (`QUEUE_INSERT`'s memmove). -/
def listInsert {α : Type} (idx : Nat) (x : α) (l : List α) : List α :=
  l.take idx ++ [x] ++ l.drop idx

/-! ### Buffer movement macros -/

/-- `SKIP`: consume one character from the working buffer. -/
def skipChar (p : YamlParser) : YamlParser :=
  { p with
    mark := { index := p.mark.index + 1, line := p.mark.line
              column := p.mark.column + 1 }
    unread := p.unread - 1
    buffer := p.buffer.drop (width_at p.buffer 0) }

/-- `SKIP_LINE`: consume one line break from the working buffer. -/
def skipLine (p : YamlParser) : YamlParser :=
  if is_crlf_at p.buffer 0 then
    { p with
      mark := { index := p.mark.index + 2, line := p.mark.line + 1, column := 0 }
      unread := p.unread - 2
      buffer := p.buffer.drop 2 }
  else if is_break_at p.buffer 0 then
    { p with
      mark := { index := p.mark.index + 1, line := p.mark.line + 1, column := 0 }
      unread := p.unread - 1
      buffer := p.buffer.drop (width_at p.buffer 0) }
  else p

/-- `READ`: copy one character from the buffer to a token string. -/
def readChar (p : YamlParser) (str : List Nat) : YamlParser × List Nat :=
  let w := width_at p.buffer 0
  ({ p with
     mark := { index := p.mark.index + 1, line := p.mark.line
               column := p.mark.column + 1 }
     unread := p.unread - 1
     buffer := p.buffer.drop w },
   str ++ p.buffer.take w)

/-- `READ_LINE`: copy one line break (normalised) to a token string. -/
def readLine (p : YamlParser) (str : List Nat) : YamlParser × List Nat :=
  if check_at p.buffer 13 0 && check_at p.buffer 10 1 then
    ({ p with
       mark := { index := p.mark.index + 2, line := p.mark.line + 1, column := 0 }
       unread := p.unread - 2
       buffer := p.buffer.drop 2 }, str ++ [10])
  else if check_at p.buffer 13 0 || check_at p.buffer 10 0 then
    ({ p with
       mark := { index := p.mark.index + 1, line := p.mark.line + 1, column := 0 }
       unread := p.unread - 1
       buffer := p.buffer.drop 1 }, str ++ [10])
  else if check_at p.buffer 0xC2 0 && check_at p.buffer 0x85 1 then
    ({ p with
       mark := { index := p.mark.index + 1, line := p.mark.line + 1, column := 0 }
       unread := p.unread - 1
       buffer := p.buffer.drop 2 }, str ++ [10])
  else if check_at p.buffer 0xE2 0 && check_at p.buffer 0x80 1 &&
      (check_at p.buffer 0xA8 2 || check_at p.buffer 0xA9 2) then
    ({ p with
       mark := { index := p.mark.index + 1, line := p.mark.line + 1, column := 0 }
       unread := p.unread - 1
       buffer := p.buffer.drop 3 }, str ++ p.buffer.take 3)
  else (p, str)

/-! ### Reader (yaml_parser_update_buffer and helpers) -/

/-- `yaml_parser_set_reader_error`. -/
def set_reader_error (p : YamlParser) (problem : String) (offset : Nat)
    (value : Int) : YamlParser :=
  { p with
    error := .readerError, problem := problem
    problem_offset := offset, problem_value := value }

/-- `MAX_FILE_SIZE` = `~(size_t)0 / 2` on a 64-bit platform. -/
def maxFileSize : Nat := (2 ^ 64 - 1) / 2

/-- `yaml_parser_determine_encoding`: look for a BOM; default to UTF-8.
For string input the raw stream is available at once, so a raw refill that
finds fewer than 3 octets remaining sets the EOF flag. -/
def yaml_parser_determine_encoding (p : YamlParser) : YamlParser :=
  let p := if ¬p.eof ∧ p.raw.length < 3 then { p with eof := true } else p
  if 2 ≤ p.raw.length ∧ p.raw.take 2 = [0xFF, 0xFE] then
    { p with encoding := .utf16le, raw := p.raw.drop 2, offset := p.offset + 2 }
  else if 2 ≤ p.raw.length ∧ p.raw.take 2 = [0xFE, 0xFF] then
    { p with encoding := .utf16be, raw := p.raw.drop 2, offset := p.offset + 2 }
  else if 3 ≤ p.raw.length ∧ p.raw.take 3 = [0xEF, 0xBB, 0xBF] then
    { p with encoding := .utf8, raw := p.raw.drop 3, offset := p.offset + 3 }
  else
    { p with encoding := .utf8 }

/-- The character range admitted by the reader:
`#x9 | #xA | #xD | [#x20-#x7E] | #x85 | [#xA0-#xD7FF] | [#xE000-#xFFFD]
| [#x10000-#x10FFFF]`. -/
def allowedChar (value : Nat) : Bool :=
  decide (value = 0x09 ∨ value = 0x0A ∨ value = 0x0D ∨
    (0x20 ≤ value ∧ value ≤ 0x7E) ∨ value = 0x85 ∨
    (0xA0 ≤ value ∧ value ≤ 0xD7FF) ∨ (0xE000 ≤ value ∧ value ≤ 0xFFFD) ∨
    (0x10000 ≤ value ∧ value ≤ 0x10FFFF))

/-- UTF-8 encoding of a code point (the "put the character into the buffer"
branches of `yaml_parser_update_buffer`). -/
def utf8Encode (value : Nat) : List Nat :=
  if value ≤ 0x7F then [value]
  else if value ≤ 0x7FF then
    [0xC0 + (value >>> 6), 0x80 + (value &&& 0x3F)]
  else if value ≤ 0xFFFF then
    [0xE0 + (value >>> 12), 0x80 + ((value >>> 6) &&& 0x3F),
     0x80 + (value &&& 0x3F)]
  else
    [0xF0 + (value >>> 18), 0x80 + ((value >>> 12) &&& 0x3F),
     0x80 + ((value >>> 6) &&& 0x3F), 0x80 + (value &&& 0x3F)]

/-- Check and fold the trailing octets of a UTF-8 sequence, returning either
the position and value of an invalid octet or the decoded value. -/
def utf8TrailFold : List Nat → Nat → Nat → Sum (Nat × Nat) Nat
  | [], _, value => Sum.inr value
  | o :: rest, k, value =>
    if o &&& 0xC0 == 0x80 then utf8TrailFold rest (k + 1) ((value <<< 6) + (o &&& 0x3F))
    else Sum.inl (k, o)

/-- Outcome of decoding one character from the raw buffer. -/
inductive DecodeStep
| derr (p : YamlParser)
| incomplete (p : YamlParser)
| dok (p : YamlParser)

/-- Common tail of the decode loop: validate the control-character range,
advance the raw pointers and append the (re-encoded) character to the
working buffer. -/
def decodeCommit (p : YamlParser) (width : Nat) (value : Nat) : DecodeStep :=
  if ¬allowedChar value then
    .derr (set_reader_error p "control characters are not allowed" p.offset value)
  else
    .dok { p with
      raw := p.raw.drop width
      offset := p.offset + width
      buffer := p.buffer ++ utf8Encode value
      unread := p.unread + 1 }

/-- Decode one character: the UTF-8 / UTF-16LE / UTF-16BE branches of the
decode loop in `yaml_parser_update_buffer`. -/
def decodeOne (p : YamlParser) : DecodeStep :=
  let raw_unread := p.raw.length
  match p.encoding with
  | .utf8 =>
    let o := octetAt p.raw 0
    let width : Nat :=
      if o &&& 0x80 == 0x00 then 1
      else if o &&& 0xE0 == 0xC0 then 2
      else if o &&& 0xF0 == 0xE0 then 3
      else if o &&& 0xF8 == 0xF0 then 4
      else 0
    if width = 0 then
      .derr (set_reader_error p "invalid leading UTF-8 octet" p.offset o)
    else if raw_unread < width then
      if p.eof then
        .derr (set_reader_error p "incomplete UTF-8 octet sequence" p.offset (-1))
      else .incomplete p
    else
      let lead : Nat :=
        if o &&& 0x80 == 0x00 then o &&& 0x7F
        else if o &&& 0xE0 == 0xC0 then o &&& 0x1F
        else if o &&& 0xF0 == 0xE0 then o &&& 0x0F
        else o &&& 0x07
      match utf8TrailFold ((p.raw.drop 1).take (width - 1)) 1 lead with
      | Sum.inl (k, bad) =>
        .derr (set_reader_error p "invalid trailing UTF-8 octet" (p.offset + k) bad)
      | Sum.inr value =>
        if ¬(width = 1 ∨ (width = 2 ∧ 0x80 ≤ value) ∨ (width = 3 ∧ 0x800 ≤ value) ∨
            (width = 4 ∧ 0x10000 ≤ value)) then
          .derr (set_reader_error p "invalid length of a UTF-8 sequence" p.offset (-1))
        else if (0xD800 ≤ value ∧ value ≤ 0xDFFF) ∨ 0x10FFFF < value then
          .derr (set_reader_error p "invalid Unicode character" p.offset value)
        else
          decodeCommit p width value
  | .utf16le | .utf16be =>
    let low : Nat := if p.encoding = .utf16le then 0 else 1
    let high : Nat := if p.encoding = .utf16le then 1 else 0
    if raw_unread < 2 then
      if p.eof then
        .derr (set_reader_error p "incomplete UTF-16 character" p.offset (-1))
      else .incomplete p
    else
      let value := octetAt p.raw low + (octetAt p.raw high <<< 8)
      if value &&& 0xFC00 == 0xDC00 then
        .derr (set_reader_error p "unexpected low surrogate area" p.offset value)
      else if value &&& 0xFC00 == 0xD800 then
        if raw_unread < 4 then
          if p.eof then
            .derr (set_reader_error p "incomplete UTF-16 surrogate pair" p.offset (-1))
          else .incomplete p
        else
          let value2 := octetAt p.raw (low + 2) + (octetAt p.raw (high + 2) <<< 8)
          if ¬(value2 &&& 0xFC00 == 0xDC00) then
            .derr (set_reader_error p "expected low surrogate area" (p.offset + 2) value2)
          else
            decodeCommit p 4 (0x10000 + ((value &&& 0x3FF) <<< 10) + (value2 &&& 0x3FF))
      else
        decodeCommit p 2 value
  | .anyEncoding => .derr p

/-- The decode loop: decode raw octets until the raw buffer is exhausted, an
incomplete trailing sequence is found, or an error occurs. -/
def decodeLoop : Nat → YamlParser → Option (YamlParser × Bool)
  | 0, p => if p.raw.isEmpty then some (p, true) else none
  | fuel + 1, p =>
    if p.raw.isEmpty then some (p, true)
    else
      match decodeOne p with
      | .derr p => some (p, false)
      | .incomplete p => some (p, true)
      | .dok p => decodeLoop fuel p

/-- Append the NUL sentinel at EOF ("On EOF, put NUL into the buffer"). -/
def appendNul (p : YamlParser) : YamlParser :=
  { p with buffer := p.buffer ++ [0], unread := p.unread + 1 }

/-- `yaml_parser_update_buffer`: ensure at least `length` decoded characters
are available.  With string input, the first fill pass decodes the entire raw
stream; a second pass only observes EOF and appends the NUL sentinel. -/
def yaml_parser_update_buffer (p : YamlParser) (length : Nat) :
    Option (YamlParser × Bool) :=
  if p.eof ∧ p.raw = [] then some (p, true)
  else if length ≤ p.unread then some (p, true)
  else
    let p := if p.encoding = .anyEncoding then yaml_parser_determine_encoding p
             else p
    let p := if p.raw = [] then { p with eof := true } else p
    match decodeLoop (p.raw.length + 1) p with
    | none => none
    | some (p, false) => some (p, false)
    | some (p, true) =>
      if p.eof then some (appendNul p, true)
      else if length ≤ p.unread then
        if maxFileSize ≤ p.offset then
          some (set_reader_error p "input is too long" p.offset (-1), false)
        else some (p, true)
      else
        let p := { p with eof := true }
        match decodeLoop (p.raw.length + 1) p with
        | none => none
        | some (p, false) => some (p, false)
        | some (p, true) => some (appendNul p, true)

/-- `CACHE`: ensure that `length` characters are available in the buffer. -/
def cache (p : YamlParser) (length : Nat) : Option (YamlParser × Bool) :=
  if length ≤ p.unread then some (p, true)
  else yaml_parser_update_buffer p length

/-! ### yaml_check_utf8 -/

/-- Loop of `yaml_check_utf8`, with fuel bounded by the string length (each
step consumes at least one octet). -/
def yaml_check_utf8_go : Nat → List Nat → Bool
  | 0, [] => true
  | 0, _ :: _ => false
  | _ + 1, [] => true
  | fuel + 1, o :: rest =>
    let width : Nat :=
      if o &&& 0x80 == 0x00 then 1
      else if o &&& 0xE0 == 0xC0 then 2
      else if o &&& 0xF0 == 0xE0 then 3
      else if o &&& 0xF8 == 0xF0 then 4
      else 0
    let lead : Nat :=
      if o &&& 0x80 == 0x00 then o &&& 0x7F
      else if o &&& 0xE0 == 0xC0 then o &&& 0x1F
      else if o &&& 0xF0 == 0xE0 then o &&& 0x0F
      else if o &&& 0xF8 == 0xF0 then o &&& 0x07
      else 0
    if width = 0 then false
    else if rest.length + 1 < width then false
    else
      match utf8TrailFold (rest.take (width - 1)) 1 lead with
      | Sum.inl _ => false
      | Sum.inr value =>
        if ¬(width = 1 ∨ (width = 2 ∧ 0x80 ≤ value) ∨ (width = 3 ∧ 0x800 ≤ value) ∨
            (width = 4 ∧ 0x10000 ≤ value)) then false
        else yaml_check_utf8_go fuel (rest.drop (width - 1))

/-- `yaml_check_utf8`: structural validity of a UTF-8 octet string
(well-formed sequences with no overlong encodings).  Note that it places
no restriction on surrogate or out-of-range code points, nor on control
characters. -/
def yaml_check_utf8 (s : List Nat) : Bool := yaml_check_utf8_go s.length s

end Myyaml

namespace Myyaml

/-! ### Result type for fallible, possibly input-consuming operations -/

/-- Result of an internal routine: out of fuel (never happens with ample
fuel), failure (C return 0, with the error recorded on the parser), or
success with a value. -/
inductive Res (α : Type) where
| outOfFuel
| fail (p : YamlParser)
| ok (p : YamlParser) (val : α)

/-- Sequencing for `Res`. -/
def Res.andThen {α β : Type} : Res α → (YamlParser → α → Res β) → Res β
  | .outOfFuel, _ => .outOfFuel
  | .fail p, _ => .fail p
  | .ok p a, k => k p a

/-- Lift the reader result into `Res`. -/
def liftC : Option (YamlParser × Bool) → Res Unit
  | none => .outOfFuel
  | some (p, true) => .ok p ()
  | some (p, false) => .fail p

/-- `CACHE` as a `Res` operation. -/
def cacheR (p : YamlParser) (length : Nat) : Res Unit := liftC (cache p length)

/-- Lift a `(parser, success)` pair into `Res`. -/
def liftB : YamlParser × Bool → Res Unit
  | (p, true) => .ok p ()
  | (p, false) => .fail p

/-! ### Scanner auxiliary functions -/

/-- `yaml_parser_set_scanner_error`. -/
def set_scanner_error (p : YamlParser) (context : Option String)
    (context_mark : YamlMark) (problem : String) : YamlParser :=
  { p with
    error := .scannerError, context := context, context_mark := context_mark
    problem := problem, problem_mark := p.mark }

/-- The all-zero simple key used to reset slots. -/
def emptySimpleKey : YamlSimpleKey :=
  { token_number := 0, mark := zeroMark, possible := false, required := false }

/-- Loop body of `yaml_parser_stale_simple_keys`, walking the slots from the
bottom of the stack. -/
def yaml_parser_stale_simple_keys_go (p : YamlParser)
    (acc : List YamlSimpleKey) : List YamlSimpleKey → YamlParser × Bool
  | [] => ({ p with simple_keys := acc }, true)
  | sk :: rest =>
    if sk.possible ∧
        (sk.mark.line < p.mark.line ∨ sk.mark.index + 1024 < p.mark.index) then
      if sk.required then
        (set_scanner_error { p with simple_keys := acc ++ sk :: rest }
          (some "while scanning a simple key") sk.mark
          "could not find expected ':'", false)
      else
        yaml_parser_stale_simple_keys_go p (acc ++ [{ sk with possible := false }]) rest
    else yaml_parser_stale_simple_keys_go p (acc ++ [sk]) rest

/-- `yaml_parser_stale_simple_keys`: drop candidates that can no longer be
simple keys; a required candidate that went stale is a scanner error. -/
def yaml_parser_stale_simple_keys (p : YamlParser) : YamlParser × Bool :=
  yaml_parser_stale_simple_keys_go p [] p.simple_keys

/-- `yaml_parser_remove_simple_key`. -/
def yaml_parser_remove_simple_key (p : YamlParser) : YamlParser × Bool :=
  match p.simple_keys.getLast? with
  | none => (p, true)
  | some sk =>
    if sk.possible ∧ sk.required then
      (set_scanner_error p (some "while scanning a simple key") sk.mark
        "could not find expected ':'", false)
    else
      ({ p with
         simple_keys := p.simple_keys.dropLast ++ [{ sk with possible := false }] },
       true)

/-- `yaml_parser_save_simple_key`. -/
def yaml_parser_save_simple_key (p : YamlParser) : YamlParser × Bool :=
  let required : Bool :=
    p.flow_level == 0 && p.indent == (p.mark.column : Int)
  if p.simple_key_allowed then
    let sk : YamlSimpleKey :=
      { token_number := p.tokens_parsed + p.tokens.length
        mark := p.mark, possible := true, required := required }
    match yaml_parser_remove_simple_key p with
    | (p, false) => (p, false)
    | (p, true) =>
      ({ p with simple_keys := p.simple_keys.dropLast ++ [sk] }, true)
  else (p, true)

/-- `yaml_parser_increase_flow_level`. -/
def yaml_parser_increase_flow_level (p : YamlParser) : YamlParser × Bool :=
  let p := { p with simple_keys := p.simple_keys ++ [emptySimpleKey] }
  if p.flow_level == 2147483647 then
    ({ p with error := .memoryError }, false)
  else ({ p with flow_level := p.flow_level + 1 }, true)

/-- `yaml_parser_decrease_flow_level`. -/
def yaml_parser_decrease_flow_level (p : YamlParser) : YamlParser × Bool :=
  if p.flow_level ≠ 0 then
    ({ p with flow_level := p.flow_level - 1
              simple_keys := p.simple_keys.dropLast }, true)
  else (p, true)

/-- `yaml_parser_roll_indent`: push the indentation level and insert a
collection-start token at the tail or at the position of a pending simple
key. -/
def yaml_parser_roll_indent (p : YamlParser) (column : Int) (number : Int)
    (ttype : YamlTokenType) (mark : YamlMark) : YamlParser × Bool :=
  if p.flow_level ≠ 0 then (p, true)
  else if p.indent < column then
    let p := { p with indents := p.indents ++ [p.indent] }
    if (2147483647 : Int) < column then ({ p with error := .memoryError }, false)
    else
      let p := { p with indent := column }
      let token : YamlToken := ⟨ttype, .noData, mark, mark⟩
      if number = -1 then ({ p with tokens := p.tokens ++ [token] }, true)
      else
        ({ p with
           tokens := listInsert (number - (p.tokens_parsed : Int)).toNat token p.tokens },
         true)
  else (p, true)

/-- Loop of `yaml_parser_unroll_indent`: emit BLOCK-END tokens while the
current indentation exceeds the column. -/
def yaml_parser_unroll_indent_go (column : Int) : Nat → YamlParser → YamlParser
  | 0, p => p
  | fuel + 1, p =>
    if column < p.indent then
      match p.indents.getLast? with
      | none => p
      | some i =>
        yaml_parser_unroll_indent_go column fuel
          { p with
            tokens := p.tokens ++ [⟨.blockEnd, .noData, p.mark, p.mark⟩]
            indent := i, indents := p.indents.dropLast }
    else p

/-- `yaml_parser_unroll_indent`. -/
def yaml_parser_unroll_indent (p : YamlParser) (column : Int) :
    YamlParser × Bool :=
  if p.flow_level ≠ 0 then (p, true)
  else (yaml_parser_unroll_indent_go column (p.indents.length + 1) p, true)

/-- `yaml_parser_fetch_stream_start`. -/
def yaml_parser_fetch_stream_start (p : YamlParser) : YamlParser × Bool :=
  let p := { p with
    indent := -1
    simple_keys := p.simple_keys ++ [emptySimpleKey]
    simple_key_allowed := true
    stream_start_produced := true }
  ({ p with
     tokens := p.tokens ++ [⟨.streamStart, .streamStart p.encoding, p.mark, p.mark⟩] },
   true)

/-- `yaml_parser_fetch_stream_end`. -/
def yaml_parser_fetch_stream_end (p : YamlParser) : YamlParser × Bool :=
  let p :=
    if p.mark.column ≠ 0 then
      { p with mark := { index := p.mark.index, line := p.mark.line + 1, column := 0 } }
    else p
  match yaml_parser_unroll_indent p (-1) with
  | (p, false) => (p, false)
  | (p, true) =>
    match yaml_parser_remove_simple_key p with
    | (p, false) => (p, false)
    | (p, true) =>
      let p := { p with simple_key_allowed := false }
      ({ p with tokens := p.tokens ++ [⟨.streamEnd, .noData, p.mark, p.mark⟩] }, true)

end Myyaml

namespace Myyaml

/-! ### yaml_parser_scan_to_next_token -/

/-- Whitespace-eating loop of `yaml_parser_scan_to_next_token` (tabs allowed
in flow context or when no simple key may start). -/
def stnt_ws_loop : Nat → YamlParser → Res Unit
  | 0, _ => .outOfFuel
  | fuel + 1, p =>
    if is_space_at p.buffer 0 ||
        ((p.flow_level != 0 || !p.simple_key_allowed) && is_tab_at p.buffer 0) then
      let p := skipChar p
      (cacheR p 1).andThen fun p _ => stnt_ws_loop fuel p
    else .ok p ()

/-- Comment-eating loop: skip to the end of the line. -/
def comment_loop : Nat → YamlParser → Res Unit
  | 0, _ => .outOfFuel
  | fuel + 1, p =>
    if !is_breakz_at p.buffer 0 then
      let p := skipChar p
      (cacheR p 1).andThen fun p _ => comment_loop fuel p
    else .ok p ()

/-- Blank-eating loop (spaces and tabs). -/
def blank_loop : Nat → YamlParser → Res Unit
  | 0, _ => .outOfFuel
  | fuel + 1, p =>
    if is_blank_at p.buffer 0 then
      let p := skipChar p
      (cacheR p 1).andThen fun p _ => blank_loop fuel p
    else .ok p ()

/-- `yaml_parser_scan_to_next_token`: eat whitespace, comments and line
breaks until the next token; in block context a line break re-allows a
simple key. -/
def yaml_parser_scan_to_next_token : Nat → YamlParser → Res Unit
  | 0, _ => .outOfFuel
  | fuel + 1, p =>
    (cacheR p 1).andThen fun p _ =>
    let p := if p.mark.column == 0 && is_bom_at p.buffer 0 then skipChar p else p
    (cacheR p 1).andThen fun p _ =>
    (stnt_ws_loop fuel p).andThen fun p _ =>
    (if check_at p.buffer 35 0 then comment_loop fuel p else .ok p ()).andThen
      fun p _ =>
    if is_break_at p.buffer 0 then
      (cacheR p 2).andThen fun p _ =>
      let p := skipLine p
      let p := if p.flow_level == 0 then { p with simple_key_allowed := true } else p
      yaml_parser_scan_to_next_token fuel p
    else .ok p ()

/-! ### Directive scanning -/

/-- Name-consuming loop of `yaml_parser_scan_directive_name`. -/
def sdn_loop : Nat → YamlParser → List Nat → Res (List Nat)
  | 0, _, _ => .outOfFuel
  | fuel + 1, p, str =>
    if is_alpha_at p.buffer 0 then
      let (p, str) := readChar p str
      (cacheR p 1).andThen fun p _ => sdn_loop fuel p str
    else .ok p str

/-- `yaml_parser_scan_directive_name`. -/
def yaml_parser_scan_directive_name (fuel : Nat) (p : YamlParser)
    (start_mark : YamlMark) : Res (List Nat) :=
  (cacheR p 1).andThen fun p _ =>
  (sdn_loop fuel p []).andThen fun p str =>
  if str.isEmpty then
    .fail (set_scanner_error p (some "while scanning a directive") start_mark
      "could not find expected directive name")
  else if !is_blankz_at p.buffer 0 then
    .fail (set_scanner_error p (some "while scanning a directive") start_mark
      "found unexpected non-alphabetical character")
  else .ok p str

/-- Digit-consuming loop of `yaml_parser_scan_version_directive_number`;
numbers longer than `MAX_NUMBER_LENGTH = 9` digits are rejected. -/
def svdn_loop (start_mark : YamlMark) :
    Nat → YamlParser → Nat → Nat → Res (Nat × Nat)
  | 0, _, _, _ => .outOfFuel
  | fuel + 1, p, value, length =>
    if is_digit_at p.buffer 0 then
      let length := length + 1
      if 9 < length then
        .fail (set_scanner_error p (some "while scanning a %YAML directive")
          start_mark "found extremely long version number")
      else
        let value := value * 10 + as_digit_at p.buffer 0
        let p := skipChar p
        (cacheR p 1).andThen fun p _ => svdn_loop start_mark fuel p value length
    else .ok p (value, length)

/-- `yaml_parser_scan_version_directive_number`. -/
def yaml_parser_scan_version_directive_number (fuel : Nat) (p : YamlParser)
    (start_mark : YamlMark) : Res Int :=
  (cacheR p 1).andThen fun p _ =>
  (svdn_loop start_mark fuel p 0 0).andThen fun p vl =>
  if vl.2 = 0 then
    .fail (set_scanner_error p (some "while scanning a %YAML directive")
      start_mark "did not find expected version number")
  else .ok p (vl.1 : Int)

/-- `yaml_parser_scan_version_directive_value`: `major '.' minor`. -/
def yaml_parser_scan_version_directive_value (fuel : Nat) (p : YamlParser)
    (start_mark : YamlMark) : Res (Int × Int) :=
  (cacheR p 1).andThen fun p _ =>
  (blank_loop fuel p).andThen fun p _ =>
  (yaml_parser_scan_version_directive_number fuel p start_mark).andThen
    fun p major =>
  if !check_at p.buffer 46 0 then
    .fail (set_scanner_error p (some "while scanning a %YAML directive")
      start_mark "did not find expected digit or '.' character")
  else
    let p := skipChar p
    (yaml_parser_scan_version_directive_number fuel p start_mark).andThen
      fun p minor =>
    .ok p (major, minor)

/-- Alpha-consuming loop of `yaml_parser_scan_tag_handle`. -/
def sth_loop : Nat → YamlParser → List Nat → Res (List Nat)
  | 0, _, _ => .outOfFuel
  | fuel + 1, p, str =>
    if is_alpha_at p.buffer 0 then
      let (p, str) := readChar p str
      (cacheR p 1).andThen fun p _ => sth_loop fuel p str
    else .ok p str

/-- `yaml_parser_scan_tag_handle`: `!`, `!!`, or `!name!`. -/
def yaml_parser_scan_tag_handle (fuel : Nat) (p : YamlParser)
    (directive : Bool) (start_mark : YamlMark) : Res (List Nat) :=
  (cacheR p 1).andThen fun p _ =>
  if !check_at p.buffer 33 0 then
    .fail (set_scanner_error p
      (some (if directive then "while scanning a tag directive"
             else "while scanning a tag"))
      start_mark "did not find expected '!'")
  else
    let (p, str) := readChar p []
    (cacheR p 1).andThen fun p _ =>
    (sth_loop fuel p str).andThen fun p str =>
    if check_at p.buffer 33 0 then
      let (p, str) := readChar p str
      .ok p str
    else
      if directive && !(str == [33]) then
        .fail (set_scanner_error p (some "while parsing a tag directive")
          start_mark "did not find expected '!'")
      else .ok p str

/-- One escaped octet group of `yaml_parser_scan_uri_escapes`; `width = 0`
means the leading octet has not been seen yet. -/
def sue_go (directive : Bool) (start_mark : YamlMark) :
    Nat → YamlParser → List Nat → Nat → Res (List Nat)
  | 0, _, _, _ => .outOfFuel
  | fuel + 1, p, str, width =>
    (cacheR p 3).andThen fun p _ =>
    if !(check_at p.buffer 37 0 && is_hex_at p.buffer 1 && is_hex_at p.buffer 2) then
      .fail (set_scanner_error p
        (some (if directive then "while parsing a %TAG directive"
               else "while parsing a tag"))
        start_mark "did not find URI escaped octet")
    else
      let octet := ((as_hex_at p.buffer 1) <<< 4) + as_hex_at p.buffer 2
      if width = 0 then
        let w : Nat :=
          if octet &&& 0x80 == 0x00 then 1
          else if octet &&& 0xE0 == 0xC0 then 2
          else if octet &&& 0xF0 == 0xE0 then 3
          else if octet &&& 0xF8 == 0xF0 then 4
          else 0
        if w = 0 then
          .fail (set_scanner_error p
            (some (if directive then "while parsing a %TAG directive"
                   else "while parsing a tag"))
            start_mark "found an incorrect leading UTF-8 octet")
        else
          let str := str ++ [octet]
          let p := skipChar (skipChar (skipChar p))
          if w - 1 = 0 then .ok p str
          else sue_go directive start_mark fuel p str (w - 1)
      else
        if !(octet &&& 0xC0 == 0x80) then
          .fail (set_scanner_error p
            (some (if directive then "while parsing a %TAG directive"
                   else "while parsing a tag"))
            start_mark "found an incorrect trailing UTF-8 octet")
        else
          let str := str ++ [octet]
          let p := skipChar (skipChar (skipChar p))
          if width - 1 = 0 then .ok p str
          else sue_go directive start_mark fuel p str (width - 1)

/-- `yaml_parser_scan_uri_escapes`. -/
def yaml_parser_scan_uri_escapes (fuel : Nat) (p : YamlParser)
    (directive : Bool) (start_mark : YamlMark) (str : List Nat) :
    Res (List Nat) :=
  sue_go directive start_mark fuel p str 0

/-- A character admissible inside a tag URI; `uri_char` additionally admits
the flow indicators `,`, `[`, `]` (verbatim tags and directives). -/
def is_uri_char (p : YamlParser) (uri_char : Bool) : Bool :=
  is_alpha_at p.buffer 0 || check_at p.buffer 59 0 || check_at p.buffer 47 0 ||
  check_at p.buffer 63 0 || check_at p.buffer 58 0 || check_at p.buffer 64 0 ||
  check_at p.buffer 38 0 || check_at p.buffer 61 0 || check_at p.buffer 43 0 ||
  check_at p.buffer 36 0 || check_at p.buffer 46 0 || check_at p.buffer 37 0 ||
  check_at p.buffer 33 0 || check_at p.buffer 126 0 || check_at p.buffer 42 0 ||
  check_at p.buffer 39 0 || check_at p.buffer 40 0 || check_at p.buffer 41 0 ||
  (uri_char && (check_at p.buffer 44 0 || check_at p.buffer 91 0 ||
    check_at p.buffer 93 0))

/-- URI-consuming loop of `yaml_parser_scan_tag_uri`; `length` counts the
characters gathered so far (head included). -/
def stu_loop (uri_char directive : Bool) (start_mark : YamlMark) :
    Nat → YamlParser → List Nat → Nat → Res (List Nat × Nat)
  | 0, _, _, _ => .outOfFuel
  | fuel + 1, p, str, length =>
    if is_uri_char p uri_char then
      (if check_at p.buffer 37 0 then
        yaml_parser_scan_uri_escapes fuel p directive start_mark str
      else
        let (p, str) := readChar p str
        .ok p str).andThen fun p str =>
      let length := length + 1
      (cacheR p 1).andThen fun p _ =>
      stu_loop uri_char directive start_mark fuel p str length
    else .ok p (str, length)

/-- `yaml_parser_scan_tag_uri`; the optional `head` contributes everything
after its leading `!` to the URI being gathered. -/
def yaml_parser_scan_tag_uri (fuel : Nat) (p : YamlParser)
    (uri_char directive : Bool) (head : Option (List Nat))
    (start_mark : YamlMark) : Res (List Nat) :=
  let hd := head.getD []
  let length := hd.length
  let str : List Nat := if 1 < length then hd.drop 1 else []
  (cacheR p 1).andThen fun p _ =>
  (stu_loop uri_char directive start_mark fuel p str length).andThen
    fun p sl =>
  if sl.2 = 0 then
    .fail (set_scanner_error p
      (some (if directive then "while parsing a %TAG directive"
             else "while parsing a tag"))
      start_mark "did not find expected tag URI")
  else .ok p sl.1

/-- `yaml_parser_scan_tag_directive_value`: handle, then whitespace, then
URI. -/
def yaml_parser_scan_tag_directive_value (fuel : Nat) (p : YamlParser)
    (start_mark : YamlMark) : Res (List Nat × List Nat) :=
  (cacheR p 1).andThen fun p _ =>
  (blank_loop fuel p).andThen fun p _ =>
  (yaml_parser_scan_tag_handle fuel p true start_mark).andThen fun p handle =>
  (cacheR p 1).andThen fun p _ =>
  if !is_blank_at p.buffer 0 then
    .fail (set_scanner_error p (some "while scanning a %TAG directive")
      start_mark "did not find expected whitespace")
  else
    (blank_loop fuel p).andThen fun p _ =>
    (yaml_parser_scan_tag_uri fuel p true true none start_mark).andThen
      fun p pfx =>
    (cacheR p 1).andThen fun p _ =>
    if !is_blankz_at p.buffer 0 then
      .fail (set_scanner_error p (some "while scanning a %TAG directive")
        start_mark "did not find expected whitespace or line break")
    else .ok p (handle, pfx)

/-- `yaml_parser_scan_directive`: dispatch on the directive name and eat the
rest of the line. -/
def yaml_parser_scan_directive (fuel : Nat) (p : YamlParser) : Res YamlToken :=
  let start_mark := p.mark
  let p := skipChar p
  (yaml_parser_scan_directive_name fuel p start_mark).andThen fun p name =>
  (if name = strBytes "YAML" then
    (yaml_parser_scan_version_directive_value fuel p start_mark).andThen
      fun p mm =>
    .ok p (⟨.versionDirective, .versionDirective mm.1 mm.2, start_mark, p.mark⟩ :
      YamlToken)
  else if name = strBytes "TAG" then
    (yaml_parser_scan_tag_directive_value fuel p start_mark).andThen fun p hp =>
    .ok p (⟨.tagDirective, .tagDirective hp.1 hp.2, start_mark, p.mark⟩ :
      YamlToken)
  else
    .fail (set_scanner_error p (some "while scanning a directive") start_mark
      "found unknown directive name")).andThen fun p token =>
  (cacheR p 1).andThen fun p _ =>
  (blank_loop fuel p).andThen fun p _ =>
  (if check_at p.buffer 35 0 then comment_loop fuel p else .ok p ()).andThen
    fun p _ =>
  if !is_breakz_at p.buffer 0 then
    .fail (set_scanner_error p (some "while scanning a directive") start_mark
      "did not find expected comment or line break")
  else
    if is_break_at p.buffer 0 then
      (cacheR p 2).andThen fun p _ =>
      .ok (skipLine p) token
    else .ok p token

end Myyaml

namespace Myyaml

/-! ### Anchor/alias and tag scanning -/

/-- Value-consuming loop of `yaml_parser_scan_anchor`. -/
def sa_loop : Nat → YamlParser → List Nat → Nat → Res (List Nat × Nat)
  | 0, _, _, _ => .outOfFuel
  | fuel + 1, p, str, length =>
    if is_alpha_at p.buffer 0 then
      let (p, str) := readChar p str
      (cacheR p 1).andThen fun p _ => sa_loop fuel p str (length + 1)
    else .ok p (str, length)

/-- `yaml_parser_scan_anchor` (both ALIAS and ANCHOR tokens). -/
def yaml_parser_scan_anchor (fuel : Nat) (p : YamlParser)
    (ttype : YamlTokenType) : Res YamlToken :=
  let start_mark := p.mark
  let p := skipChar p
  (cacheR p 1).andThen fun p _ =>
  (sa_loop fuel p [] 0).andThen fun p sl =>
  let str := sl.1
  let length := sl.2
  let end_mark := p.mark
  if length = 0 ||
      !(is_blankz_at p.buffer 0 || check_at p.buffer 63 0 ||
        check_at p.buffer 58 0 || check_at p.buffer 44 0 ||
        check_at p.buffer 93 0 || check_at p.buffer 125 0 ||
        check_at p.buffer 37 0 || check_at p.buffer 64 0 ||
        check_at p.buffer 96 0) then
    .fail (set_scanner_error p
      (some (if ttype = .anchorTok then "while scanning an anchor"
             else "while scanning an alias"))
      start_mark "did not find expected alphabetic or numeric character")
  else
    if ttype = .anchorTok then
      .ok p ⟨.anchorTok, .anchorTok str, start_mark, end_mark⟩
    else
      .ok p ⟨.aliasTok, .aliasTok str, start_mark, end_mark⟩

/-- `yaml_parser_scan_tag`: verbatim `!<uri>`, `!handle!suffix`, `!suffix`,
or the bare `!`. -/
def yaml_parser_scan_tag (fuel : Nat) (p : YamlParser) : Res YamlToken :=
  let start_mark := p.mark
  (cacheR p 2).andThen fun p _ =>
  (if check_at p.buffer 60 1 then
    -- Verbatim tag: empty handle, eat `!<`, scan the URI up to `>`.
    let handle : List Nat := []
    let p := skipChar (skipChar p)
    (yaml_parser_scan_tag_uri fuel p true false none start_mark).andThen
      fun p suffix =>
    if !check_at p.buffer 62 0 then
      .fail (set_scanner_error p (some "while scanning a tag") start_mark
        "did not find the expected '>'")
    else
      .ok (skipChar p) (handle, suffix)
  else
    (yaml_parser_scan_tag_handle fuel p false start_mark).andThen
      fun p handle =>
    if handle.headD 0 == 33 && 1 < handle.length && handle.getLastD 0 == 33 then
      (yaml_parser_scan_tag_uri fuel p false false none start_mark).andThen
        fun p suffix =>
      .ok p (handle, suffix)
    else
      (yaml_parser_scan_tag_uri fuel p false false (some handle)
          start_mark).andThen fun p suffix =>
      let handle : List Nat := [33]
      if suffix.isEmpty then
        -- The special `!` tag: swap handle and suffix.
        .ok p (([] : List Nat), handle)
      else
        .ok p (handle, suffix)).andThen fun p hs =>
  (cacheR p 1).andThen fun p _ =>
  if !is_blankz_at p.buffer 0 &&
      (p.flow_level == 0 || !check_at p.buffer 44 0) then
    .fail (set_scanner_error p (some "while scanning a tag") start_mark
      "did not find expected whitespace or line break")
  else
    .ok p ⟨.tagTok, .tagTok hs.1 hs.2, start_mark, p.mark⟩

/-! ### Block scalar scanning -/

/-- Indentation-space loop of `yaml_parser_scan_block_scalar_breaks`. -/
def sbsb_space_loop (indentV : Int) : Nat → YamlParser → Res Unit
  | 0, _ => .outOfFuel
  | fuel + 1, p =>
    if (indentV == 0 || (p.mark.column : Int) < indentV) &&
        is_space_at p.buffer 0 then
      let p := skipChar p
      (cacheR p 1).andThen fun p _ => sbsb_space_loop indentV fuel p
    else .ok p ()

/-- Outer loop of `yaml_parser_scan_block_scalar_breaks`, gathering the line
breaks and the maximal indentation seen. -/
def sbsb_outer (start_mark : YamlMark) (indentV : Int) :
    Nat → YamlParser → List Nat → Int → YamlMark →
    Res (List Nat × Int × YamlMark)
  | 0, _, _, _, _ => .outOfFuel
  | fuel + 1, p, breaks, max_indent, end_mark =>
    (cacheR p 1).andThen fun p _ =>
    (sbsb_space_loop indentV fuel p).andThen fun p _ =>
    let max_indent :=
      if max_indent < (p.mark.column : Int) then (p.mark.column : Int)
      else max_indent
    if (indentV == 0 || (p.mark.column : Int) < indentV) &&
        is_tab_at p.buffer 0 then
      .fail (set_scanner_error p (some "while scanning a block scalar")
        start_mark "found a tab character where an indentation space is expected")
    else if !is_break_at p.buffer 0 then .ok p (breaks, max_indent, end_mark)
    else
      (cacheR p 2).andThen fun p _ =>
      let (p, breaks) := readLine p breaks
      sbsb_outer start_mark indentV fuel p breaks max_indent p.mark

/-- `yaml_parser_scan_block_scalar_breaks`: eat indentation and blank lines;
determine the indentation level when it is not yet fixed. -/
def yaml_parser_scan_block_scalar_breaks (fuel : Nat) (p : YamlParser)
    (indentV : Int) (breaks : List Nat) (start_mark : YamlMark) :
    Res (Int × List Nat × YamlMark) :=
  (sbsb_outer start_mark indentV fuel p breaks 0 p.mark).andThen fun p bme =>
  let breaks := bme.1
  let max_indent := bme.2.1
  let end_mark := bme.2.2
  if indentV == 0 then
    let i := max_indent
    let i := if i < p.indent + 1 then p.indent + 1 else i
    let i := if i < 1 then 1 else i
    .ok p (i, breaks, end_mark)
  else .ok p (indentV, breaks, end_mark)

/-- Line-content loop of `yaml_parser_scan_block_scalar` (read characters to
the end of the line). -/
def sbs_line_loop : Nat → YamlParser → List Nat → Res (List Nat)
  | 0, _, _ => .outOfFuel
  | fuel + 1, p, str =>
    if !is_breakz_at p.buffer 0 then
      let (p, str) := readChar p str
      (cacheR p 1).andThen fun p _ => sbs_line_loop fuel p str
    else .ok p str

/-- Content loop of `yaml_parser_scan_block_scalar`: one iteration per
content line at the scalar's indentation. -/
def sbs_content_loop (literal : Bool) (start_mark : YamlMark) :
    Nat → YamlParser → List Nat → List Nat → List Nat → Bool → Int →
    YamlMark → Res (List Nat × List Nat × List Nat × YamlMark)
  | 0, _, _, _, _, _, _, _ => .outOfFuel
  | fuel + 1, p, str, leading_break, trailing_breaks, leading_blank, indentV,
      end_mark =>
    if (p.mark.column : Int) == indentV && !is_z_at p.buffer 0 then
      let trailing_blank := is_blank_at p.buffer 0
      let fold := !literal && leading_break.headD 0 == 10 &&
        !leading_blank && !trailing_blank
      let str :=
        if fold then (if trailing_breaks.headD 0 == 0 then str ++ [32] else str)
        else str ++ leading_break
      let leading_break : List Nat := []
      let str := str ++ trailing_breaks
      let trailing_breaks : List Nat := []
      let leading_blank := is_blank_at p.buffer 0
      (sbs_line_loop fuel p str).andThen fun p str =>
      (cacheR p 2).andThen fun p _ =>
      let (p, leading_break) := readLine p leading_break
      (yaml_parser_scan_block_scalar_breaks fuel p indentV trailing_breaks
          start_mark).andThen fun p ibe =>
      sbs_content_loop literal start_mark fuel p str leading_break ibe.2.1
        leading_blank ibe.1 ibe.2.2
    else .ok p (str, leading_break, trailing_breaks, end_mark)

/-- `yaml_parser_scan_block_scalar`: scan a literal (`|`) or folded (`>`)
scalar, with optional chomping and explicit-indent indicators. -/
def yaml_parser_scan_block_scalar (fuel : Nat) (p : YamlParser)
    (literal : Bool) : Res YamlToken :=
  let start_mark := p.mark
  let p := skipChar p
  (cacheR p 1).andThen fun p _ =>
  -- chomping / indentation indicators, in either order
  (if check_at p.buffer 43 0 || check_at p.buffer 45 0 then
    let chomping : Int := if check_at p.buffer 43 0 then 1 else -1
    let p := skipChar p
    (cacheR p 1).andThen fun p _ =>
    if is_digit_at p.buffer 0 then
      if check_at p.buffer 48 0 then
        .fail (set_scanner_error p (some "while scanning a block scalar")
          start_mark "found an indentation indicator equal to 0")
      else
        let increment := as_digit_at p.buffer 0
        .ok (skipChar p) (chomping, increment)
    else .ok p (chomping, 0)
  else if is_digit_at p.buffer 0 then
    if check_at p.buffer 48 0 then
      .fail (set_scanner_error p (some "while scanning a block scalar")
        start_mark "found an indentation indicator equal to 0")
    else
      let increment := as_digit_at p.buffer 0
      let p := skipChar p
      (cacheR p 1).andThen fun p _ =>
      if check_at p.buffer 43 0 || check_at p.buffer 45 0 then
        let chomping : Int := if check_at p.buffer 43 0 then 1 else -1
        .ok (skipChar p) (chomping, increment)
      else .ok p ((0 : Int), increment)
  else .ok p ((0 : Int), 0)).andThen fun p ci =>
  let chomping := ci.1
  let increment := ci.2
  (cacheR p 1).andThen fun p _ =>
  (blank_loop fuel p).andThen fun p _ =>
  (if check_at p.buffer 35 0 then comment_loop fuel p else .ok p ()).andThen
    fun p _ =>
  if !is_breakz_at p.buffer 0 then
    .fail (set_scanner_error p (some "while scanning a block scalar")
      start_mark "did not find expected comment or line break")
  else
    (if is_break_at p.buffer 0 then
      (cacheR p 2).andThen fun p _ => .ok (skipLine p) ()
    else .ok p ()).andThen fun p _ =>
    let indentV : Int :=
      if increment ≠ 0 then
        (if 0 ≤ p.indent then p.indent + increment else (increment : Int))
      else 0
    (yaml_parser_scan_block_scalar_breaks fuel p indentV [] start_mark).andThen
      fun p ibe =>
    let indentV := ibe.1
    let trailing_breaks := ibe.2.1
    let end_mark := ibe.2.2
    (cacheR p 1).andThen fun p _ =>
    (sbs_content_loop literal start_mark fuel p [] [] trailing_breaks false
        indentV end_mark).andThen fun p out =>
    let str := out.1
    let leading_break := out.2.1
    let trailing_breaks := out.2.2.1
    let end_mark := out.2.2.2
    let str := if chomping ≠ -1 then str ++ leading_break else str
    let str := if chomping == 1 then str ++ trailing_breaks else str
    .ok p ⟨.scalarTok,
      .scalarTok str str.length
        (if literal then .literal else .folded),
      start_mark, end_mark⟩

end Myyaml

namespace Myyaml

/-! ### Flow (quoted) and plain scalar scanning -/

/-- Iterated `SKIP`. -/
def skipN : Nat → YamlParser → YamlParser
  | 0, p => p
  | n + 1, p => skipN n (skipChar p)

/-- Scan `count` hexadecimal digits from the head of the buffer. -/
def hexScan : Nat → List Nat → Nat → Nat → Option Nat
  | 0, _, _, value => some value
  | n + 1, buf, k, value =>
    if is_hex_at buf k then hexScan n buf (k + 1) (value * 16 + as_hex_at buf k)
    else none

/-- The side buffers a scalar scan accumulates: the value under
construction, pending leading/trailing line breaks, pending whitespace, the
leading-blanks flag, and the running end mark. -/
structure ScalarBufs where
  str : List Nat
  leading_break : List Nat
  trailing_breaks : List Nat
  whitespaces : List Nat
  leading_blanks : Bool
  end_mark : YamlMark

/-- One escape sequence in a double-quoted scalar (the `\\` switch of
`yaml_parser_scan_flow_scalar`). -/
def sfs_escape (start_mark : YamlMark) (p : YamlParser) (str : List Nat) :
    Res (List Nat) :=
  let c := octetAt p.buffer 1
  let simple : Option (List Nat) :=
    if c == 48 then some [0]
    else if c == 97 then some [7]
    else if c == 98 then some [8]
    else if c == 116 || c == 9 then some [9]
    else if c == 110 then some [10]
    else if c == 118 then some [11]
    else if c == 102 then some [12]
    else if c == 114 then some [13]
    else if c == 101 then some [27]
    else if c == 32 then some [32]
    else if c == 34 then some [34]
    else if c == 47 then some [47]
    else if c == 92 then some [92]
    else if c == 78 then some [0xC2, 0x85]
    else if c == 95 then some [0xC2, 0xA0]
    else if c == 76 then some [0xE2, 0x80, 0xA8]
    else if c == 80 then some [0xE2, 0x80, 0xA9]
    else none
  match simple with
  | some bytes => .ok (skipChar (skipChar p)) (str ++ bytes)
  | none =>
    let code_length : Nat :=
      if c == 120 then 2 else if c == 117 then 4 else if c == 85 then 8 else 0
    if code_length = 0 then
      .fail (set_scanner_error p (some "while parsing a quoted scalar")
        start_mark "found unknown escape character")
    else
      let p := skipChar (skipChar p)
      (cacheR p code_length).andThen fun p _ =>
      match hexScan code_length p.buffer 0 0 with
      | none =>
        .fail (set_scanner_error p (some "while parsing a quoted scalar")
          start_mark "did not find expected hexdecimal number")
      | some value =>
        if (0xD800 ≤ value ∧ value ≤ 0xDFFF) ∨ 0x10FFFF < value then
          .fail (set_scanner_error p (some "while parsing a quoted scalar")
            start_mark "found invalid Unicode character escape code")
        else
          .ok (skipN code_length p) (str ++ utf8Encode value)

/-- Non-blank consumption loop of `yaml_parser_scan_flow_scalar`; stops at
the closing quote, a blank/break/NUL, or after an escaped line break (which
sets `leading_blanks`). -/
def sfs_nb_loop (single : Bool) (start_mark : YamlMark) :
    Nat → YamlParser → List Nat → Bool → Res (List Nat × Bool)
  | 0, _, _, _ => .outOfFuel
  | fuel + 1, p, str, leading_blanks =>
    if !is_blankz_at p.buffer 0 then
      if single && check_at p.buffer 39 0 && check_at p.buffer 39 1 then
        let str := str ++ [39]
        let p := skipChar (skipChar p)
        (cacheR p 2).andThen fun p _ =>
        sfs_nb_loop single start_mark fuel p str leading_blanks
      else if check_at p.buffer (if single then 39 else 34) 0 then
        .ok p (str, leading_blanks)
      else if !single && check_at p.buffer 92 0 && is_break_at p.buffer 1 then
        (cacheR p 3).andThen fun p _ =>
        let p := skipChar p
        let p := skipLine p
        .ok p (str, true)
      else if !single && check_at p.buffer 92 0 then
        (sfs_escape start_mark p str).andThen fun p str =>
        (cacheR p 2).andThen fun p _ =>
        sfs_nb_loop single start_mark fuel p str leading_blanks
      else
        let (p, str) := readChar p str
        (cacheR p 2).andThen fun p _ =>
        sfs_nb_loop single start_mark fuel p str leading_blanks
    else .ok p (str, leading_blanks)

/-- Blank/break consumption loop shared in shape by the flow scalar scanner:
whitespace is gathered (or dropped after a break), the first break goes to
`leading_break`, later ones to `trailing_breaks`. -/
def sfs_blank_loop : Nat → YamlParser → ScalarBufs → Res ScalarBufs
  | 0, _, _ => .outOfFuel
  | fuel + 1, p, bufs =>
    if is_blank_at p.buffer 0 || is_break_at p.buffer 0 then
      if is_blank_at p.buffer 0 then
        if !bufs.leading_blanks then
          let (p, ws) := readChar p bufs.whitespaces
          (cacheR p 1).andThen fun p _ =>
          sfs_blank_loop fuel p { bufs with whitespaces := ws }
        else
          let p := skipChar p
          (cacheR p 1).andThen fun p _ => sfs_blank_loop fuel p bufs
      else
        (cacheR p 2).andThen fun p _ =>
        if !bufs.leading_blanks then
          let (p, lb) := readLine p bufs.leading_break
          (cacheR p 1).andThen fun p _ =>
          sfs_blank_loop fuel p
            { bufs with whitespaces := [], leading_break := lb
                        leading_blanks := true }
        else
          let (p, tb) := readLine p bufs.trailing_breaks
          (cacheR p 1).andThen fun p _ =>
          sfs_blank_loop fuel p { bufs with trailing_breaks := tb }
    else .ok p bufs

/-- Whitespace/line-break folding of the flow scalar scanner ("Join the
whitespaces or fold line breaks"). -/
def sfs_join (bufs : ScalarBufs) : ScalarBufs :=
  if bufs.leading_blanks then
    if bufs.leading_break.headD 0 == 10 then
      if bufs.trailing_breaks.headD 0 == 0 then
        { bufs with str := bufs.str ++ [32], leading_break := [] }
      else
        { bufs with str := bufs.str ++ bufs.trailing_breaks
                    trailing_breaks := [], leading_break := [] }
    else
      { bufs with str := bufs.str ++ bufs.leading_break ++ bufs.trailing_breaks
                  leading_break := [], trailing_breaks := [] }
  else
    { bufs with str := bufs.str ++ bufs.whitespaces, whitespaces := [] }

/-- Outer loop of `yaml_parser_scan_flow_scalar`. -/
def sfs_outer (single : Bool) (start_mark : YamlMark) :
    Nat → YamlParser → ScalarBufs → Res (List Nat)
  | 0, _, _ => .outOfFuel
  | fuel + 1, p, bufs =>
    (cacheR p 4).andThen fun p _ =>
    if p.mark.column == 0 &&
        ((check_at p.buffer 45 0 && check_at p.buffer 45 1 &&
          check_at p.buffer 45 2) ||
         (check_at p.buffer 46 0 && check_at p.buffer 46 1 &&
          check_at p.buffer 46 2)) &&
        is_blankz_at p.buffer 3 then
      .fail (set_scanner_error p (some "while scanning a quoted scalar")
        start_mark "found unexpected document indicator")
    else if is_z_at p.buffer 0 then
      .fail (set_scanner_error p (some "while scanning a quoted scalar")
        start_mark "found unexpected end of stream")
    else
      (cacheR p 2).andThen fun p _ =>
      (sfs_nb_loop single start_mark fuel p bufs.str false).andThen fun p sl =>
      let bufs := { bufs with str := sl.1, leading_blanks := sl.2 }
      (cacheR p 1).andThen fun p _ =>
      if check_at p.buffer (if single then 39 else 34) 0 then .ok p bufs.str
      else
        (cacheR p 1).andThen fun p _ =>
        (sfs_blank_loop fuel p bufs).andThen fun p bufs =>
        sfs_outer single start_mark fuel p (sfs_join bufs)

/-- `yaml_parser_scan_flow_scalar`. -/
def yaml_parser_scan_flow_scalar (fuel : Nat) (p : YamlParser)
    (single : Bool) : Res YamlToken :=
  let start_mark := p.mark
  let p := skipChar p
  (sfs_outer single start_mark fuel p
      ⟨[], [], [], [], false, start_mark⟩).andThen fun p str =>
  let p := skipChar p
  .ok p ⟨.scalarTok,
    .scalarTok str str.length
      (if single then .singleQuoted else .doubleQuoted),
    start_mark, p.mark⟩

/-- Non-blank consumption loop of `yaml_parser_scan_plain_scalar`. -/
def sps_nb_loop (start_mark : YamlMark) :
    Nat → YamlParser → ScalarBufs → Res ScalarBufs
  | 0, _, _ => .outOfFuel
  | fuel + 1, p, bufs =>
    if !is_blankz_at p.buffer 0 then
      if p.flow_level != 0 && check_at p.buffer 58 0 &&
          (check_at p.buffer 44 1 || check_at p.buffer 63 1 ||
           check_at p.buffer 91 1 || check_at p.buffer 93 1 ||
           check_at p.buffer 123 1 || check_at p.buffer 125 1) then
        .fail (set_scanner_error p (some "while scanning a plain scalar")
          start_mark "found unexpected ':'")
      else if (check_at p.buffer 58 0 && is_blankz_at p.buffer 1) ||
          (p.flow_level != 0 &&
           (check_at p.buffer 44 0 || check_at p.buffer 91 0 ||
            check_at p.buffer 93 0 || check_at p.buffer 123 0 ||
            check_at p.buffer 125 0)) then
        .ok p bufs
      else
        let bufs :=
          if bufs.leading_blanks || !bufs.whitespaces.isEmpty then
            if bufs.leading_blanks then { (sfs_join bufs) with leading_blanks := false }
            else sfs_join bufs
          else bufs
        let (p, str) := readChar p bufs.str
        let bufs := { bufs with str := str, end_mark := p.mark }
        (cacheR p 2).andThen fun p _ =>
        sps_nb_loop start_mark fuel p bufs
    else .ok p bufs

/-- Blank/break consumption loop of `yaml_parser_scan_plain_scalar`
(with the tab-violates-indentation check). -/
def sps_blank_loop (indentV : Int) (start_mark : YamlMark) :
    Nat → YamlParser → ScalarBufs → Res ScalarBufs
  | 0, _, _ => .outOfFuel
  | fuel + 1, p, bufs =>
    if is_blank_at p.buffer 0 || is_break_at p.buffer 0 then
      if is_blank_at p.buffer 0 then
        if bufs.leading_blanks && (p.mark.column : Int) < indentV &&
            is_tab_at p.buffer 0 then
          .fail (set_scanner_error p (some "while scanning a plain scalar")
            start_mark "found a tab character that violates indentation")
        else if !bufs.leading_blanks then
          let (p, ws) := readChar p bufs.whitespaces
          (cacheR p 1).andThen fun p _ =>
          sps_blank_loop indentV start_mark fuel p { bufs with whitespaces := ws }
        else
          let p := skipChar p
          (cacheR p 1).andThen fun p _ =>
          sps_blank_loop indentV start_mark fuel p bufs
      else
        (cacheR p 2).andThen fun p _ =>
        if !bufs.leading_blanks then
          let (p, lb) := readLine p bufs.leading_break
          (cacheR p 1).andThen fun p _ =>
          sps_blank_loop indentV start_mark fuel p
            { bufs with whitespaces := [], leading_break := lb
                        leading_blanks := true }
        else
          let (p, tb) := readLine p bufs.trailing_breaks
          (cacheR p 1).andThen fun p _ =>
          sps_blank_loop indentV start_mark fuel p
            { bufs with trailing_breaks := tb }
    else .ok p bufs

/-- Outer loop of `yaml_parser_scan_plain_scalar`. -/
def sps_outer (indentV : Int) (start_mark : YamlMark) :
    Nat → YamlParser → ScalarBufs → Res ScalarBufs
  | 0, _, _ => .outOfFuel
  | fuel + 1, p, bufs =>
    (cacheR p 4).andThen fun p _ =>
    if p.mark.column == 0 &&
        ((check_at p.buffer 45 0 && check_at p.buffer 45 1 &&
          check_at p.buffer 45 2) ||
         (check_at p.buffer 46 0 && check_at p.buffer 46 1 &&
          check_at p.buffer 46 2)) &&
        is_blankz_at p.buffer 3 then
      .ok p bufs
    else if check_at p.buffer 35 0 then .ok p bufs
    else
      (sps_nb_loop start_mark fuel p bufs).andThen fun p bufs =>
      if !(is_blank_at p.buffer 0 || is_break_at p.buffer 0) then .ok p bufs
      else
        (cacheR p 1).andThen fun p _ =>
        (sps_blank_loop indentV start_mark fuel p bufs).andThen fun p bufs =>
        if p.flow_level == 0 && (p.mark.column : Int) < indentV then .ok p bufs
        else sps_outer indentV start_mark fuel p bufs

/-- `yaml_parser_scan_plain_scalar`. -/
def yaml_parser_scan_plain_scalar (fuel : Nat) (p : YamlParser) :
    Res YamlToken :=
  let indentV : Int := p.indent + 1
  let start_mark := p.mark
  (sps_outer indentV start_mark fuel p
      ⟨[], [], [], [], false, start_mark⟩).andThen fun p bufs =>
  let token : YamlToken :=
    ⟨.scalarTok, .scalarTok bufs.str bufs.str.length .plain, start_mark,
      bufs.end_mark⟩
  let p := if bufs.leading_blanks then { p with simple_key_allowed := true }
           else p
  .ok p token

end Myyaml

namespace Myyaml

/-! ### Token fetchers and the scanner dispatcher -/

/-- The all-zero token (C `memset` result). -/
def zeroToken : YamlToken := ⟨.noToken, .noData, zeroMark, zeroMark⟩

/-- `yaml_parser_fetch_directive`. -/
def yaml_parser_fetch_directive (fuel : Nat) (p : YamlParser) : Res Unit :=
  (liftB (yaml_parser_unroll_indent p (-1))).andThen fun p _ =>
  (liftB (yaml_parser_remove_simple_key p)).andThen fun p _ =>
  let p := { p with simple_key_allowed := false }
  (yaml_parser_scan_directive fuel p).andThen fun p token =>
  .ok { p with tokens := p.tokens ++ [token] } ()

/-- `yaml_parser_fetch_document_indicator`. -/
def yaml_parser_fetch_document_indicator (p : YamlParser)
    (ttype : YamlTokenType) : Res Unit :=
  (liftB (yaml_parser_unroll_indent p (-1))).andThen fun p _ =>
  (liftB (yaml_parser_remove_simple_key p)).andThen fun p _ =>
  let p := { p with simple_key_allowed := false }
  let start_mark := p.mark
  let p := skipN 3 p
  .ok { p with tokens := p.tokens ++ [⟨ttype, .noData, start_mark, p.mark⟩] } ()

/-- `yaml_parser_fetch_flow_collection_start`. -/
def yaml_parser_fetch_flow_collection_start (p : YamlParser)
    (ttype : YamlTokenType) : Res Unit :=
  (liftB (yaml_parser_save_simple_key p)).andThen fun p _ =>
  (liftB (yaml_parser_increase_flow_level p)).andThen fun p _ =>
  let p := { p with simple_key_allowed := true }
  let start_mark := p.mark
  let p := skipChar p
  .ok { p with tokens := p.tokens ++ [⟨ttype, .noData, start_mark, p.mark⟩] } ()

/-- `yaml_parser_fetch_flow_collection_end`. -/
def yaml_parser_fetch_flow_collection_end (p : YamlParser)
    (ttype : YamlTokenType) : Res Unit :=
  (liftB (yaml_parser_remove_simple_key p)).andThen fun p _ =>
  (liftB (yaml_parser_decrease_flow_level p)).andThen fun p _ =>
  let p := { p with simple_key_allowed := false }
  let start_mark := p.mark
  let p := skipChar p
  .ok { p with tokens := p.tokens ++ [⟨ttype, .noData, start_mark, p.mark⟩] } ()

/-- `yaml_parser_fetch_flow_entry`. -/
def yaml_parser_fetch_flow_entry (p : YamlParser) : Res Unit :=
  (liftB (yaml_parser_remove_simple_key p)).andThen fun p _ =>
  let p := { p with simple_key_allowed := true }
  let start_mark := p.mark
  let p := skipChar p
  .ok { p with
    tokens := p.tokens ++ [⟨.flowEntry, .noData, start_mark, p.mark⟩] } ()

/-- `yaml_parser_fetch_block_entry`. -/
def yaml_parser_fetch_block_entry (p : YamlParser) : Res Unit :=
  (if p.flow_level == 0 then
    if !p.simple_key_allowed then
      .fail (set_scanner_error p none p.mark
        "block sequence entries are not allowed in this context")
    else
      liftB (yaml_parser_roll_indent p (p.mark.column : Int) (-1)
        .blockSequenceStart p.mark)
  else .ok p ()).andThen fun p _ =>
  (liftB (yaml_parser_remove_simple_key p)).andThen fun p _ =>
  let p := { p with simple_key_allowed := true }
  let start_mark := p.mark
  let p := skipChar p
  .ok { p with
    tokens := p.tokens ++ [⟨.blockEntry, .noData, start_mark, p.mark⟩] } ()

/-- `yaml_parser_fetch_key`. -/
def yaml_parser_fetch_key (p : YamlParser) : Res Unit :=
  (if p.flow_level == 0 then
    if !p.simple_key_allowed then
      .fail (set_scanner_error p none p.mark
        "mapping keys are not allowed in this context")
    else
      liftB (yaml_parser_roll_indent p (p.mark.column : Int) (-1)
        .blockMappingStart p.mark)
  else .ok p ()).andThen fun p _ =>
  (liftB (yaml_parser_remove_simple_key p)).andThen fun p _ =>
  let p := { p with simple_key_allowed := p.flow_level == 0 }
  let start_mark := p.mark
  let p := skipChar p
  .ok { p with
    tokens := p.tokens ++ [⟨.keyTok, .noData, start_mark, p.mark⟩] } ()

/-- `yaml_parser_fetch_value`: resolve a pending simple key (inserting the
KEY and possibly BLOCK-MAPPING-START tokens) or start a complex value. -/
def yaml_parser_fetch_value (p : YamlParser) : Res Unit :=
  let sk := p.simple_keys.getLastD emptySimpleKey
  (if sk.possible then
    let token : YamlToken := ⟨.keyTok, .noData, sk.mark, sk.mark⟩
    let p := { p with
      tokens := listInsert (sk.token_number - p.tokens_parsed) token p.tokens }
    (liftB (yaml_parser_roll_indent p (sk.mark.column : Int)
        (sk.token_number : Int) .blockMappingStart sk.mark)).andThen fun p _ =>
    let p := { p with
      simple_keys := p.simple_keys.dropLast ++ [{ sk with possible := false }] }
    .ok { p with simple_key_allowed := false } ()
  else
    (if p.flow_level == 0 then
      if !p.simple_key_allowed then
        .fail (set_scanner_error p none p.mark
          "mapping values are not allowed in this context")
      else
        liftB (yaml_parser_roll_indent p (p.mark.column : Int) (-1)
          .blockMappingStart p.mark)
    else .ok p ()).andThen fun p _ =>
    .ok { p with simple_key_allowed := p.flow_level == 0 } ()
  ).andThen fun p _ =>
  let start_mark := p.mark
  let p := skipChar p
  .ok { p with
    tokens := p.tokens ++ [⟨.valueTok, .noData, start_mark, p.mark⟩] } ()

/-- `yaml_parser_fetch_anchor` (ALIAS or ANCHOR). -/
def yaml_parser_fetch_anchor (fuel : Nat) (p : YamlParser)
    (ttype : YamlTokenType) : Res Unit :=
  (liftB (yaml_parser_save_simple_key p)).andThen fun p _ =>
  let p := { p with simple_key_allowed := false }
  (yaml_parser_scan_anchor fuel p ttype).andThen fun p token =>
  .ok { p with tokens := p.tokens ++ [token] } ()

/-- `yaml_parser_fetch_tag`. -/
def yaml_parser_fetch_tag (fuel : Nat) (p : YamlParser) : Res Unit :=
  (liftB (yaml_parser_save_simple_key p)).andThen fun p _ =>
  let p := { p with simple_key_allowed := false }
  (yaml_parser_scan_tag fuel p).andThen fun p token =>
  .ok { p with tokens := p.tokens ++ [token] } ()

/-- `yaml_parser_fetch_block_scalar`. -/
def yaml_parser_fetch_block_scalar (fuel : Nat) (p : YamlParser)
    (literal : Bool) : Res Unit :=
  (liftB (yaml_parser_remove_simple_key p)).andThen fun p _ =>
  let p := { p with simple_key_allowed := true }
  (yaml_parser_scan_block_scalar fuel p literal).andThen fun p token =>
  .ok { p with tokens := p.tokens ++ [token] } ()

/-- `yaml_parser_fetch_flow_scalar`. -/
def yaml_parser_fetch_flow_scalar (fuel : Nat) (p : YamlParser)
    (single : Bool) : Res Unit :=
  (liftB (yaml_parser_save_simple_key p)).andThen fun p _ =>
  let p := { p with simple_key_allowed := false }
  (yaml_parser_scan_flow_scalar fuel p single).andThen fun p token =>
  .ok { p with tokens := p.tokens ++ [token] } ()

/-- `yaml_parser_fetch_plain_scalar`. -/
def yaml_parser_fetch_plain_scalar (fuel : Nat) (p : YamlParser) : Res Unit :=
  (liftB (yaml_parser_save_simple_key p)).andThen fun p _ =>
  let p := { p with simple_key_allowed := false }
  (yaml_parser_scan_plain_scalar fuel p).andThen fun p token =>
  .ok { p with tokens := p.tokens ++ [token] } ()

/-- `yaml_parser_fetch_next_token`: the dispatcher for token fetchers. -/
def yaml_parser_fetch_next_token (fuel : Nat) (p : YamlParser) : Res Unit :=
  (cacheR p 1).andThen fun p _ =>
  if !p.stream_start_produced then liftB (yaml_parser_fetch_stream_start p)
  else
  (yaml_parser_scan_to_next_token fuel p).andThen fun p _ =>
  (liftB (yaml_parser_stale_simple_keys p)).andThen fun p _ =>
  (liftB (yaml_parser_unroll_indent p (p.mark.column : Int))).andThen fun p _ =>
  (cacheR p 4).andThen fun p _ =>
  if is_z_at p.buffer 0 then liftB (yaml_parser_fetch_stream_end p)
  else if p.mark.column == 0 && check_at p.buffer 37 0 then
    yaml_parser_fetch_directive fuel p
  else if p.mark.column == 0 && check_at p.buffer 45 0 &&
      check_at p.buffer 45 1 && check_at p.buffer 45 2 &&
      is_blankz_at p.buffer 3 then
    yaml_parser_fetch_document_indicator p .documentStart
  else if p.mark.column == 0 && check_at p.buffer 46 0 &&
      check_at p.buffer 46 1 && check_at p.buffer 46 2 &&
      is_blankz_at p.buffer 3 then
    yaml_parser_fetch_document_indicator p .documentEnd
  else if check_at p.buffer 91 0 then
    yaml_parser_fetch_flow_collection_start p .flowSequenceStart
  else if check_at p.buffer 123 0 then
    yaml_parser_fetch_flow_collection_start p .flowMappingStart
  else if check_at p.buffer 93 0 then
    yaml_parser_fetch_flow_collection_end p .flowSequenceEnd
  else if check_at p.buffer 125 0 then
    yaml_parser_fetch_flow_collection_end p .flowMappingEnd
  else if check_at p.buffer 44 0 then
    yaml_parser_fetch_flow_entry p
  else if check_at p.buffer 45 0 && is_blankz_at p.buffer 1 then
    yaml_parser_fetch_block_entry p
  else if check_at p.buffer 63 0 &&
      (p.flow_level != 0 || is_blankz_at p.buffer 1) then
    yaml_parser_fetch_key p
  else if check_at p.buffer 58 0 &&
      (p.flow_level != 0 || is_blankz_at p.buffer 1) then
    yaml_parser_fetch_value p
  else if check_at p.buffer 42 0 then
    yaml_parser_fetch_anchor fuel p .aliasTok
  else if check_at p.buffer 38 0 then
    yaml_parser_fetch_anchor fuel p .anchorTok
  else if check_at p.buffer 33 0 then
    yaml_parser_fetch_tag fuel p
  else if check_at p.buffer 124 0 && p.flow_level == 0 then
    yaml_parser_fetch_block_scalar fuel p true
  else if check_at p.buffer 62 0 && p.flow_level == 0 then
    yaml_parser_fetch_block_scalar fuel p false
  else if check_at p.buffer 39 0 then
    yaml_parser_fetch_flow_scalar fuel p true
  else if check_at p.buffer 34 0 then
    yaml_parser_fetch_flow_scalar fuel p false
  else if
      !(is_blankz_at p.buffer 0 || check_at p.buffer 45 0 ||
        check_at p.buffer 63 0 || check_at p.buffer 58 0 ||
        check_at p.buffer 44 0 || check_at p.buffer 91 0 ||
        check_at p.buffer 93 0 || check_at p.buffer 123 0 ||
        check_at p.buffer 125 0 || check_at p.buffer 35 0 ||
        check_at p.buffer 38 0 || check_at p.buffer 42 0 ||
        check_at p.buffer 33 0 || check_at p.buffer 124 0 ||
        check_at p.buffer 62 0 || check_at p.buffer 39 0 ||
        check_at p.buffer 34 0 || check_at p.buffer 37 0 ||
        check_at p.buffer 64 0 || check_at p.buffer 96 0) ||
      (check_at p.buffer 45 0 && !is_blank_at p.buffer 1) ||
      (p.flow_level == 0 &&
        (check_at p.buffer 63 0 || check_at p.buffer 58 0) &&
        !is_blankz_at p.buffer 1) then
    yaml_parser_fetch_plain_scalar fuel p
  else
    .fail (set_scanner_error p (some "while scanning for the next token")
      p.mark "found character that cannot start any token")

/-- `yaml_parser_fetch_more_tokens`: fetch tokens until the head of the
queue is ready for the parser (no pending simple key may still land in
front of it). -/
def yaml_parser_fetch_more_tokens : Nat → YamlParser → Res Unit
  | 0, _ => .outOfFuel
  | fuel + 1, p =>
    (if p.tokens.isEmpty then .ok p true
     else
       (liftB (yaml_parser_stale_simple_keys p)).andThen fun p _ =>
       .ok p (p.simple_keys.any fun sk =>
         sk.possible && sk.token_number == p.tokens_parsed)).andThen
      fun p need =>
    if need then
      (yaml_parser_fetch_next_token fuel p).andThen fun p _ =>
      yaml_parser_fetch_more_tokens fuel p
    else .ok { p with token_available := true } ()

/-- `PEEK_TOKEN`. -/
def peekToken (fuel : Nat) (p : YamlParser) : Res YamlToken :=
  (if p.token_available then .ok p ()
   else yaml_parser_fetch_more_tokens fuel p).andThen fun p _ =>
  match p.tokens.head? with
  | some t => .ok p t
  | none => .fail p

/-- `SKIP_TOKEN`. -/
def skipToken (p : YamlParser) : YamlParser :=
  { p with
    token_available := false
    tokens_parsed := p.tokens_parsed + 1
    stream_end_produced := (p.tokens.headD zeroToken).ttype == .streamEnd
    tokens := p.tokens.tail }

/-- `yaml_parser_scan`: the public token-level pull API.  After an error or
once STREAM-END has been produced, it keeps returning success with a zeroed
token. -/
def yaml_parser_scan (fuel : Nat) (p : YamlParser) : Res YamlToken :=
  if p.stream_end_produced || p.error != .noError then .ok p zeroToken
  else
    (if !p.token_available then yaml_parser_fetch_more_tokens fuel p
     else .ok p ()).andThen fun p _ =>
    let token := p.tokens.headD zeroToken
    let p := { p with
      tokens := p.tokens.tail
      token_available := false
      tokens_parsed := p.tokens_parsed + 1 }
    let p := if token.ttype == .streamEnd then
        { p with stream_end_produced := true } else p
    .ok p token

end Myyaml

namespace Myyaml

/-! ### Parser: events from tokens -/

/-- The all-zero event (C `memset` result). -/
def zeroEvent : YamlEvent := ⟨.noEvent, .noData, zeroMark, zeroMark⟩

/-- Encoding carried by a STREAM-START token. -/
def YamlTokenData.ssEncoding : YamlTokenData → YamlEncoding
  | .streamStart e => e
  | _ => .anyEncoding

/-- Name carried by an ALIAS token. -/
def YamlTokenData.aliasValue : YamlTokenData → List Nat
  | .aliasTok v => v
  | _ => []

/-- Name carried by an ANCHOR token. -/
def YamlTokenData.anchorValue : YamlTokenData → List Nat
  | .anchorTok v => v
  | _ => []

/-- Handle carried by a TAG token. -/
def YamlTokenData.tagHandle : YamlTokenData → List Nat
  | .tagTok h _ => h
  | _ => []

/-- Suffix carried by a TAG token. -/
def YamlTokenData.tagSuffix : YamlTokenData → List Nat
  | .tagTok _ s => s
  | _ => []

/-- Value carried by a SCALAR token. -/
def YamlTokenData.scalarValue : YamlTokenData → List Nat
  | .scalarTok v _ _ => v
  | _ => []

/-- Length carried by a SCALAR token. -/
def YamlTokenData.scalarLength : YamlTokenData → Nat
  | .scalarTok _ l _ => l
  | _ => 0

/-- Style carried by a SCALAR token. -/
def YamlTokenData.scalarStyle : YamlTokenData → YamlScalarStyle
  | .scalarTok _ _ s => s
  | _ => .anyStyle

/-- Major version of a VERSION-DIRECTIVE token. -/
def YamlTokenData.vdMajor : YamlTokenData → Int
  | .versionDirective m _ => m
  | _ => 0

/-- Minor version of a VERSION-DIRECTIVE token. -/
def YamlTokenData.vdMinor : YamlTokenData → Int
  | .versionDirective _ m => m
  | _ => 0

/-- Handle of a TAG-DIRECTIVE token. -/
def YamlTokenData.tdHandle : YamlTokenData → List Nat
  | .tagDirective h _ => h
  | _ => []

/-- Prefix of a TAG-DIRECTIVE token. -/
def YamlTokenData.tdPrefix : YamlTokenData → List Nat
  | .tagDirective _ x => x
  | _ => []

/-- `yaml_parser_set_parser_error` (does not touch the context fields). -/
def set_parser_error (p : YamlParser) (problem : String)
    (problem_mark : YamlMark) : YamlParser :=
  { p with
    error := .parserError, problem := problem
    problem_mark := problem_mark }

/-- `yaml_parser_set_parser_error_context`. -/
def set_parser_error_context (p : YamlParser) (context : String)
    (context_mark : YamlMark) (problem : String) (problem_mark : YamlMark) :
    YamlParser :=
  { p with
    error := .parserError, context := some context
    context_mark := context_mark, problem := problem
    problem_mark := problem_mark }

/-- `yaml_maximum_level_reached` (overrides the `YAML_MEMORY_ERROR` that
`STACK_LIMIT` just recorded). -/
def yaml_maximum_level_reached (p : YamlParser) (context_mark : YamlMark)
    (problem_mark : YamlMark) : YamlParser :=
  set_parser_error_context p "while parsing" context_mark
    "Maximum nesting level reached, set with yaml_set_max_nest_level())"
    problem_mark

/-- Pop the parser state stack. -/
def popState (p : YamlParser) : YamlParserState × YamlParser :=
  (p.states.getLastD .endState, { p with states := p.states.dropLast })

/-- Pop the marks stack. -/
def popMark (p : YamlParser) : YamlMark × YamlParser :=
  (p.marks.getLastD zeroMark, { p with marks := p.marks.dropLast })

/-- `yaml_parser_process_empty_scalar`: the implicit empty-string scalar. -/
def yaml_parser_process_empty_scalar (p : YamlParser) (mark : YamlMark) :
    Res YamlEvent :=
  .ok p ⟨.scalar, .scalar none none [] 0 true false .plain, mark, mark⟩

/-- `yaml_parser_append_tag_directive`: reject (or silently skip, for the
defaults) a duplicate handle, otherwise record the directive. -/
def yaml_parser_append_tag_directive (p : YamlParser)
    (value : YamlTagDirective) (allow_duplicates : Bool) (mark : YamlMark) :
    YamlParser × Bool :=
  if p.tag_directives.any fun td => td.handle = value.handle then
    if allow_duplicates then (p, true)
    else (set_parser_error p "found duplicate %TAG directive" mark, false)
  else ({ p with tag_directives := p.tag_directives ++ [value] }, true)

/-- The two default tag directives `! -> !` and
`!! -> tag:yaml.org,2002:`. -/
def defaultTagDirectives : List YamlTagDirective :=
  [⟨[33], [33]⟩, ⟨[33, 33], strBytes "tag:yaml.org,2002:"⟩]

/-- Directive-consuming loop of `yaml_parser_process_directives`. -/
def ypd_loop : Nat → YamlParser → Option YamlVersionDirective →
    List YamlTagDirective →
    Res (Option YamlVersionDirective × List YamlTagDirective × YamlToken)
  | 0, _, _, _ => .outOfFuel
  | fuel + 1, p, version_directive, tds =>
    (peekToken fuel p).andThen fun p token =>
    if token.ttype == .versionDirective then
      if version_directive.isSome then
        .fail (set_parser_error p "found duplicate %YAML directive"
          token.start_mark)
      else if token.data.vdMajor ≠ 1 ∨
          (token.data.vdMinor ≠ 1 ∧ token.data.vdMinor ≠ 2) then
        .fail (set_parser_error p "found incompatible YAML document"
          token.start_mark)
      else
        let p := skipToken p
        ypd_loop fuel p (some ⟨token.data.vdMajor, token.data.vdMinor⟩) tds
    else if token.ttype == .tagDirective then
      let value : YamlTagDirective := ⟨token.data.tdHandle, token.data.tdPrefix⟩
      match yaml_parser_append_tag_directive p value false token.start_mark with
      | (p, false) => .fail p
      | (p, true) =>
        let p := skipToken p
        ypd_loop fuel p version_directive (tds ++ [value])
    else .ok p (version_directive, tds, token)

/-- `yaml_parser_process_directives`: consume the directive tokens and
register the default tag directives. -/
def yaml_parser_process_directives (fuel : Nat) (p : YamlParser) :
    Res (Option YamlVersionDirective × List YamlTagDirective) :=
  (ypd_loop fuel p none []).andThen fun p out =>
  let version_directive := out.1
  let tds := out.2.1
  let token := out.2.2
  match yaml_parser_append_tag_directive p (⟨[33], [33]⟩ : YamlTagDirective) true
      token.start_mark with
  | (p, false) => .fail p
  | (p, true) =>
    match yaml_parser_append_tag_directive p (⟨[33, 33], strBytes "tag:yaml.org,2002:"⟩ : YamlTagDirective) true
        token.start_mark with
    | (p, false) => .fail p
    | (p, true) => .ok p (version_directive, tds)

/-- `yaml_parser_parse_stream_start`. -/
def yaml_parser_parse_stream_start (fuel : Nat) (p : YamlParser) :
    Res YamlEvent :=
  (peekToken fuel p).andThen fun p token =>
  if token.ttype ≠ .streamStart then
    .fail (set_parser_error p "did not find expected <stream-start>"
      token.start_mark)
  else
    let p := { p with state := .implicitDocumentStart }
    let event : YamlEvent :=
      ⟨.streamStart, .streamStart token.data.ssEncoding, token.start_mark,
        token.start_mark⟩
    .ok (skipToken p) event

/-- DOCUMENT-END-skipping loop of `yaml_parser_parse_document_start`. -/
def ypds_skip_loop : Nat → YamlParser → Res YamlToken
  | 0, _ => .outOfFuel
  | fuel + 1, p =>
    (peekToken fuel p).andThen fun p token =>
    if token.ttype == .documentEnd then
      ypds_skip_loop fuel (skipToken p)
    else .ok p token

/-- `yaml_parser_parse_document_start`. -/
def yaml_parser_parse_document_start (fuel : Nat) (p : YamlParser)
    (implicit : Bool) : Res YamlEvent :=
  (peekToken fuel p).andThen fun p token =>
  (if !implicit then ypds_skip_loop fuel p else .ok p token).andThen
    fun p token =>
  if implicit && token.ttype ≠ .versionDirective &&
      token.ttype ≠ .tagDirective && token.ttype ≠ .documentStart &&
      token.ttype ≠ .streamEnd then
    (yaml_parser_process_directives fuel p).andThen fun p _ =>
    let p := { p with states := p.states ++ [YamlParserState.documentEnd] }
    let p := { p with state := .blockNode }
    .ok p ⟨.documentStart, .documentStart none [] true, token.start_mark,
      token.start_mark⟩
  else if token.ttype ≠ .streamEnd then
    let start_mark := token.start_mark
    (yaml_parser_process_directives fuel p).andThen fun p vd =>
    (peekToken fuel p).andThen fun p token =>
    if token.ttype ≠ .documentStart then
      .fail (set_parser_error p "did not find expected <document start>"
        token.start_mark)
    else
      let p := { p with states := p.states ++ [YamlParserState.documentEnd] }
      let p := { p with state := .documentContent }
      let event : YamlEvent :=
        ⟨.documentStart, .documentStart vd.1 vd.2 false, start_mark,
          token.end_mark⟩
      .ok (skipToken p) event
  else
    let p := { p with state := .endState }
    let event : YamlEvent :=
      ⟨.streamEnd, .noData, token.start_mark, token.end_mark⟩
    .ok (skipToken p) event

/-- `yaml_parser_parse_document_end`. -/
def yaml_parser_parse_document_end (fuel : Nat) (p : YamlParser) :
    Res YamlEvent :=
  (peekToken fuel p).andThen fun p token =>
  let start_mark := token.start_mark
  let (p, end_mark, implicit) :=
    if token.ttype == .documentEnd then (skipToken p, token.end_mark, false)
    else (p, token.start_mark, true)
  let p := { p with tag_directives := [] }
  let p := { p with state := .documentStart }
  .ok p ⟨.documentEnd, .documentEnd implicit, start_mark, end_mark⟩


/-- The node properties gathered by `yaml_parser_parse_node` before
dispatching on the content: the current token, optional anchor, optional
tag handle/suffix, and the three marks. -/
structure NodeProps where
  token : YamlToken
  anchor : Option (List Nat)
  tag_handle : Option (List Nat)
  tag_suffix : Option (List Nat)
  tag_mark : YamlMark
  start_mark : YamlMark
  end_mark : YamlMark

/-- `yaml_parser_parse_node`, part 1: consume optional ANCHOR and TAG
tokens in either order. -/
def yaml_parser_parse_node_props (fuel : Nat) (p : YamlParser)
    (token : YamlToken) : Res NodeProps :=
  let start_mark := token.start_mark
  let end_mark := token.start_mark
  if token.ttype == .anchorTok then
    let anchor := some token.data.anchorValue
    let start_mark := token.start_mark
    let end_mark := token.end_mark
    let p := skipToken p
    (peekToken fuel p).andThen fun p token =>
    if token.ttype == .tagTok then
      let tag_handle := some token.data.tagHandle
      let tag_suffix := some token.data.tagSuffix
      let tag_mark := token.start_mark
      let end_mark := token.end_mark
      let p := skipToken p
      (peekToken fuel p).andThen fun p token =>
      .ok p ⟨token, anchor, tag_handle, tag_suffix, tag_mark, start_mark,
        end_mark⟩
    else
      .ok p ⟨token, anchor, none, none, zeroMark, start_mark, end_mark⟩
  else if token.ttype == .tagTok then
    let tag_handle := some token.data.tagHandle
    let tag_suffix := some token.data.tagSuffix
    let start_mark := token.start_mark
    let tag_mark := token.start_mark
    let end_mark := token.end_mark
    let p := skipToken p
    (peekToken fuel p).andThen fun p token =>
    if token.ttype == .anchorTok then
      let anchor := some token.data.anchorValue
      let end_mark := token.end_mark
      let p := skipToken p
      (peekToken fuel p).andThen fun p token =>
      .ok p ⟨token, anchor, tag_handle, tag_suffix, tag_mark, start_mark,
        end_mark⟩
    else
      .ok p ⟨token, none, tag_handle, tag_suffix, tag_mark, start_mark,
        end_mark⟩
  else
    .ok p ⟨token, none, none, none, zeroMark, start_mark, end_mark⟩

/-- Tag resolution inside `yaml_parser_parse_node`: an empty handle means a
verbatim tag (the suffix stands on its own); otherwise the suffix is
appended to the prefix of the registered directive with exactly this
handle; an unregistered handle is the parser error
"found undefined tag handle". -/
def yaml_parser_resolve_tag (p : YamlParser) (tag_handle : Option (List Nat))
    (tag_suffix : Option (List Nat)) (start_mark tag_mark : YamlMark) :
    Res (Option (List Nat)) :=
  match tag_handle with
  | none => .ok p none
  | some h =>
    if h.isEmpty then .ok p (some (tag_suffix.getD []))
    else
      match p.tag_directives.find? fun td => td.handle = h with
      | some td => .ok p (some (td.pfx ++ tag_suffix.getD []))
      | none =>
        .fail (set_parser_error_context p "while parsing a node" start_mark
          "found undefined tag handle" tag_mark)

/-- `yaml_parser_parse_node`: properties (anchor/tag), tag resolution
against the registered tag directives, and dispatch to the content
production; collection starts enforce the nesting limit
(`STACK_LIMIT(indents, MAX_NESTING_LEVEL - flow_level)`). -/
def yaml_parser_parse_node (fuel : Nat) (maxNest : Int) (p : YamlParser)
    (block indentless_sequence : Bool) : Res YamlEvent :=
  (peekToken fuel p).andThen fun p token =>
  if token.ttype == .aliasTok then
    let (st, p) := popState p
    let p := { p with state := st }
    let event : YamlEvent :=
      ⟨.aliasEv, .aliasEv token.data.aliasValue, token.start_mark,
        token.end_mark⟩
    .ok (skipToken p) event
  else
    (yaml_parser_parse_node_props fuel p token).andThen fun p props =>
    let token := props.token
    let start_mark := props.start_mark
    (yaml_parser_resolve_tag p props.tag_handle props.tag_suffix
        props.start_mark props.tag_mark).andThen fun p tag =>
    let anchor := props.anchor
    let implicit : Bool := tag.isNone || tag == some []
    if indentless_sequence && token.ttype == .blockEntry then
      let end_mark := token.end_mark
      let p := { p with state := .indentlessSequenceEntry }
      .ok p ⟨.sequenceStart, .sequenceStart anchor tag implicit .block,
        start_mark, end_mark⟩
    else if token.ttype == .scalarTok then
      let end_mark := token.end_mark
      let plain_implicit : Bool :=
        (token.data.scalarStyle == .plain && tag.isNone) || tag == some [33]
      let quoted_implicit : Bool := !plain_implicit && tag.isNone
      let (st, p) := popState p
      let p := { p with state := st }
      let event : YamlEvent :=
        ⟨.scalar,
          .scalar anchor tag token.data.scalarValue token.data.scalarLength
            plain_implicit quoted_implicit token.data.scalarStyle,
          start_mark, end_mark⟩
      .ok (skipToken p) event
    else if token.ttype == .flowSequenceStart then
      if ¬((p.indents.length : Int) < maxNest - (p.flow_level : Int)) then
        .fail (yaml_maximum_level_reached { p with error := .memoryError }
          start_mark token.start_mark)
      else
        let end_mark := token.end_mark
        let p := { p with state := .flowSequenceFirstEntry }
        .ok p ⟨.sequenceStart, .sequenceStart anchor tag implicit .flow,
          start_mark, end_mark⟩
    else if token.ttype == .flowMappingStart then
      if ¬((p.indents.length : Int) < maxNest - (p.flow_level : Int)) then
        .fail (yaml_maximum_level_reached { p with error := .memoryError }
          start_mark token.start_mark)
      else
        let end_mark := token.end_mark
        let p := { p with state := .flowMappingFirstKey }
        .ok p ⟨.mappingStart, .mappingStart anchor tag implicit .flow,
          start_mark, end_mark⟩
    else if block && token.ttype == .blockSequenceStart then
      if ¬((p.indents.length : Int) < maxNest - (p.flow_level : Int)) then
        .fail (yaml_maximum_level_reached { p with error := .memoryError }
          start_mark token.start_mark)
      else
        let end_mark := token.end_mark
        let p := { p with state := .blockSequenceFirstEntry }
        .ok p ⟨.sequenceStart, .sequenceStart anchor tag implicit .block,
          start_mark, end_mark⟩
    else if block && token.ttype == .blockMappingStart then
      if ¬((p.indents.length : Int) < maxNest - (p.flow_level : Int)) then
        .fail (yaml_maximum_level_reached { p with error := .memoryError }
          start_mark token.start_mark)
      else
        let end_mark := token.end_mark
        let p := { p with state := .blockMappingFirstKey }
        .ok p ⟨.mappingStart, .mappingStart anchor tag implicit .block,
          start_mark, end_mark⟩
    else if anchor.isSome || tag.isSome then
      let (st, p) := popState p
      let p := { p with state := st }
      .ok p ⟨.scalar, .scalar anchor tag [] 0 implicit false .plain,
        start_mark, props.end_mark⟩
    else
      .fail (set_parser_error_context p
        (if block then "while parsing a block node"
         else "while parsing a flow node")
        start_mark "did not find expected node content" token.start_mark)

end Myyaml

namespace Myyaml

/-- `yaml_parser_parse_block_sequence_entry`. -/
def yaml_parser_parse_block_sequence_entry (fuel : Nat) (maxNest : Int)
    (p : YamlParser) (first : Bool) : Res YamlEvent :=
  (if first then
    (peekToken fuel p).andThen fun p token =>
    let p := { p with marks := p.marks ++ [token.start_mark] }
    .ok (skipToken p) ()
  else .ok p ()).andThen fun p _ =>
  (peekToken fuel p).andThen fun p token =>
  if token.ttype == .blockEntry then
    let mark := token.end_mark
    let p := skipToken p
    (peekToken fuel p).andThen fun p token =>
    if token.ttype ≠ .blockEntry ∧ token.ttype ≠ .blockEnd then
      let p := { p with states := p.states ++ [YamlParserState.blockSequenceEntry] }
      yaml_parser_parse_node fuel maxNest p true false
    else
      let p := { p with state := .blockSequenceEntry }
      yaml_parser_process_empty_scalar p mark
  else if token.ttype == .blockEnd then
    let (st, p) := popState p
    let p := { p with state := st }
    let (_, p) := popMark p
    let event : YamlEvent :=
      ⟨.sequenceEnd, .noData, token.start_mark, token.end_mark⟩
    .ok (skipToken p) event
  else
    let (mark, p) := popMark p
    .fail (set_parser_error_context p "while parsing a block collection" mark
      "did not find expected '-' indicator" token.start_mark)

/-- `yaml_parser_parse_indentless_sequence_entry`. -/
def yaml_parser_parse_indentless_sequence_entry (fuel : Nat) (maxNest : Int)
    (p : YamlParser) : Res YamlEvent :=
  (peekToken fuel p).andThen fun p token =>
  if token.ttype == .blockEntry then
    let mark := token.end_mark
    let p := skipToken p
    (peekToken fuel p).andThen fun p token =>
    if token.ttype ≠ .blockEntry ∧ token.ttype ≠ .keyTok ∧
        token.ttype ≠ .valueTok ∧ token.ttype ≠ .blockEnd then
      let p := { p with
        states := p.states ++ [YamlParserState.indentlessSequenceEntry] }
      yaml_parser_parse_node fuel maxNest p true false
    else
      let p := { p with state := .indentlessSequenceEntry }
      yaml_parser_process_empty_scalar p mark
  else
    let (st, p) := popState p
    let p := { p with state := st }
    .ok p ⟨.sequenceEnd, .noData, token.start_mark, token.start_mark⟩

/-- `yaml_parser_parse_block_mapping_key`. -/
def yaml_parser_parse_block_mapping_key (fuel : Nat) (maxNest : Int)
    (p : YamlParser) (first : Bool) : Res YamlEvent :=
  (if first then
    (peekToken fuel p).andThen fun p token =>
    let p := { p with marks := p.marks ++ [token.start_mark] }
    .ok (skipToken p) ()
  else .ok p ()).andThen fun p _ =>
  (peekToken fuel p).andThen fun p token =>
  if token.ttype == .keyTok then
    let mark := token.end_mark
    let p := skipToken p
    (peekToken fuel p).andThen fun p token =>
    if token.ttype ≠ .keyTok ∧ token.ttype ≠ .valueTok ∧
        token.ttype ≠ .blockEnd then
      let p := { p with states := p.states ++ [YamlParserState.blockMappingValue] }
      yaml_parser_parse_node fuel maxNest p true true
    else
      let p := { p with state := .blockMappingValue }
      yaml_parser_process_empty_scalar p mark
  else if token.ttype == .blockEnd then
    let (st, p) := popState p
    let p := { p with state := st }
    let (_, p) := popMark p
    let event : YamlEvent :=
      ⟨.mappingEnd, .noData, token.start_mark, token.end_mark⟩
    .ok (skipToken p) event
  else
    let (mark, p) := popMark p
    .fail (set_parser_error_context p "while parsing a block mapping" mark
      "did not find expected key" token.start_mark)

/-- `yaml_parser_parse_block_mapping_value`. -/
def yaml_parser_parse_block_mapping_value (fuel : Nat) (maxNest : Int)
    (p : YamlParser) : Res YamlEvent :=
  (peekToken fuel p).andThen fun p token =>
  if token.ttype == .valueTok then
    let mark := token.end_mark
    let p := skipToken p
    (peekToken fuel p).andThen fun p token =>
    if token.ttype ≠ .keyTok ∧ token.ttype ≠ .valueTok ∧
        token.ttype ≠ .blockEnd then
      let p := { p with states := p.states ++ [YamlParserState.blockMappingKey] }
      yaml_parser_parse_node fuel maxNest p true true
    else
      let p := { p with state := .blockMappingKey }
      yaml_parser_process_empty_scalar p mark
  else
    let p := { p with state := .blockMappingKey }
    yaml_parser_process_empty_scalar p token.start_mark

/-- `yaml_parser_parse_flow_sequence_entry`. -/
def yaml_parser_parse_flow_sequence_entry (fuel : Nat) (maxNest : Int)
    (p : YamlParser) (first : Bool) : Res YamlEvent :=
  (if first then
    (peekToken fuel p).andThen fun p token =>
    let p := { p with marks := p.marks ++ [token.start_mark] }
    .ok (skipToken p) ()
  else .ok p ()).andThen fun p _ =>
  (peekToken fuel p).andThen fun p token =>
  (if token.ttype ≠ .flowSequenceEnd ∧ ¬first then
    if token.ttype == .flowEntry then
      let p := skipToken p
      (peekToken fuel p).andThen fun p token => .ok p (token, true)
    else
      let (mark, p) := popMark p
      .fail (set_parser_error_context p "while parsing a flow sequence" mark
        "did not find expected ',' or ']'" token.start_mark)
  else .ok p (token, token.ttype ≠ .flowSequenceEnd)).andThen fun p tk =>
  let token := tk.1
  if tk.2 then
    if token.ttype == .keyTok then
      let p := { p with state := .flowSequenceEntryMappingKey }
      let event : YamlEvent :=
        ⟨.mappingStart, .mappingStart none none true .flow, token.start_mark,
          token.end_mark⟩
      .ok (skipToken p) event
    else if token.ttype ≠ .flowSequenceEnd then
      let p := { p with states := p.states ++ [YamlParserState.flowSequenceEntry] }
      yaml_parser_parse_node fuel maxNest p false false
    else
      let (st, p) := popState p
      let p := { p with state := st }
      let (_, p) := popMark p
      let event : YamlEvent :=
        ⟨.sequenceEnd, .noData, token.start_mark, token.end_mark⟩
      .ok (skipToken p) event
  else
    let (st, p) := popState p
    let p := { p with state := st }
    let (_, p) := popMark p
    let event : YamlEvent :=
      ⟨.sequenceEnd, .noData, token.start_mark, token.end_mark⟩
    .ok (skipToken p) event

/-- `yaml_parser_parse_flow_sequence_entry_mapping_key`. -/
def yaml_parser_parse_flow_sequence_entry_mapping_key (fuel : Nat)
    (maxNest : Int) (p : YamlParser) : Res YamlEvent :=
  (peekToken fuel p).andThen fun p token =>
  if token.ttype ≠ .valueTok ∧ token.ttype ≠ .flowEntry ∧
      token.ttype ≠ .flowSequenceEnd then
    let p := { p with
      states := p.states ++ [YamlParserState.flowSequenceEntryMappingValue] }
    yaml_parser_parse_node fuel maxNest p false false
  else if token.ttype == .flowSequenceEnd then
    let mark := token.start_mark
    let p := { p with state := .flowSequenceEntryMappingValue }
    yaml_parser_process_empty_scalar p mark
  else
    let mark := token.end_mark
    let p := skipToken p
    let p := { p with state := .flowSequenceEntryMappingValue }
    yaml_parser_process_empty_scalar p mark

/-- `yaml_parser_parse_flow_sequence_entry_mapping_value`. -/
def yaml_parser_parse_flow_sequence_entry_mapping_value (fuel : Nat)
    (maxNest : Int) (p : YamlParser) : Res YamlEvent :=
  (peekToken fuel p).andThen fun p token =>
  if token.ttype == .valueTok then
    let p := skipToken p
    (peekToken fuel p).andThen fun p token =>
    if token.ttype ≠ .flowEntry ∧ token.ttype ≠ .flowSequenceEnd then
      let p := { p with
        states := p.states ++ [YamlParserState.flowSequenceEntryMappingEnd] }
      yaml_parser_parse_node fuel maxNest p false false
    else
      let p := { p with state := .flowSequenceEntryMappingEnd }
      yaml_parser_process_empty_scalar p token.start_mark
  else
    let p := { p with state := .flowSequenceEntryMappingEnd }
    yaml_parser_process_empty_scalar p token.start_mark

/-- `yaml_parser_parse_flow_sequence_entry_mapping_end`. -/
def yaml_parser_parse_flow_sequence_entry_mapping_end (fuel : Nat)
    (p : YamlParser) : Res YamlEvent :=
  (peekToken fuel p).andThen fun p token =>
  let p := { p with state := .flowSequenceEntry }
  .ok p ⟨.mappingEnd, .noData, token.start_mark, token.start_mark⟩

/-- `yaml_parser_parse_flow_mapping_key`. -/
def yaml_parser_parse_flow_mapping_key (fuel : Nat) (maxNest : Int)
    (p : YamlParser) (first : Bool) : Res YamlEvent :=
  (if first then
    (peekToken fuel p).andThen fun p token =>
    let p := { p with marks := p.marks ++ [token.start_mark] }
    .ok (skipToken p) ()
  else .ok p ()).andThen fun p _ =>
  (peekToken fuel p).andThen fun p token =>
  (if token.ttype ≠ .flowMappingEnd ∧ ¬first then
    if token.ttype == .flowEntry then
      let p := skipToken p
      (peekToken fuel p).andThen fun p token => .ok p (token, true)
    else
      let (mark, p) := popMark p
      .fail (set_parser_error_context p "while parsing a flow mapping" mark
        "did not find expected ',' or '\x7d'" token.start_mark)
  else .ok p (token, token.ttype ≠ .flowMappingEnd)).andThen fun p tk =>
  let token := tk.1
  if tk.2 then
    if token.ttype == .keyTok then
      let p := skipToken p
      (peekToken fuel p).andThen fun p token =>
      if token.ttype ≠ .valueTok ∧ token.ttype ≠ .flowEntry ∧
          token.ttype ≠ .flowMappingEnd then
        let p := { p with states := p.states ++ [YamlParserState.flowMappingValue] }
        yaml_parser_parse_node fuel maxNest p false false
      else
        let p := { p with state := .flowMappingValue }
        yaml_parser_process_empty_scalar p token.start_mark
    else if token.ttype ≠ .flowMappingEnd then
      let p := { p with
        states := p.states ++ [YamlParserState.flowMappingEmptyValue] }
      yaml_parser_parse_node fuel maxNest p false false
    else
      let (st, p) := popState p
      let p := { p with state := st }
      let (_, p) := popMark p
      let event : YamlEvent :=
        ⟨.mappingEnd, .noData, token.start_mark, token.end_mark⟩
      .ok (skipToken p) event
  else
    let (st, p) := popState p
    let p := { p with state := st }
    let (_, p) := popMark p
    let event : YamlEvent :=
      ⟨.mappingEnd, .noData, token.start_mark, token.end_mark⟩
    .ok (skipToken p) event

/-- `yaml_parser_parse_flow_mapping_value`. -/
def yaml_parser_parse_flow_mapping_value (fuel : Nat) (maxNest : Int)
    (p : YamlParser) (empty : Bool) : Res YamlEvent :=
  (peekToken fuel p).andThen fun p token =>
  if empty then
    let p := { p with state := .flowMappingKey }
    yaml_parser_process_empty_scalar p token.start_mark
  else if token.ttype == .valueTok then
    let p := skipToken p
    (peekToken fuel p).andThen fun p token =>
    if token.ttype ≠ .flowEntry ∧ token.ttype ≠ .flowMappingEnd then
      let p := { p with states := p.states ++ [YamlParserState.flowMappingKey] }
      yaml_parser_parse_node fuel maxNest p false false
    else
      let p := { p with state := .flowMappingKey }
      yaml_parser_process_empty_scalar p token.start_mark
  else
    let p := { p with state := .flowMappingKey }
    yaml_parser_process_empty_scalar p token.start_mark

/-- `yaml_parser_parse_document_content`. -/
def yaml_parser_parse_document_content (fuel : Nat) (maxNest : Int)
    (p : YamlParser) : Res YamlEvent :=
  (peekToken fuel p).andThen fun p token =>
  if token.ttype == .versionDirective || token.ttype == .tagDirective ||
      token.ttype == .documentStart || token.ttype == .documentEnd ||
      token.ttype == .streamEnd then
    let (st, p) := popState p
    let p := { p with state := st }
    yaml_parser_process_empty_scalar p token.start_mark
  else yaml_parser_parse_node fuel maxNest p true false

/-- `yaml_parser_state_machine`: dispatch on the parser state. -/
def yaml_parser_state_machine (fuel : Nat) (maxNest : Int) (p : YamlParser) :
    Res YamlEvent :=
  match p.state with
  | .streamStart => yaml_parser_parse_stream_start fuel p
  | .implicitDocumentStart => yaml_parser_parse_document_start fuel p true
  | .documentStart => yaml_parser_parse_document_start fuel p false
  | .documentContent => yaml_parser_parse_document_content fuel maxNest p
  | .documentEnd => yaml_parser_parse_document_end fuel p
  | .blockNode => yaml_parser_parse_node fuel maxNest p true false
  | .blockNodeOrIndentlessSequence => yaml_parser_parse_node fuel maxNest p true true
  | .flowNode => yaml_parser_parse_node fuel maxNest p false false
  | .blockSequenceFirstEntry =>
    yaml_parser_parse_block_sequence_entry fuel maxNest p true
  | .blockSequenceEntry =>
    yaml_parser_parse_block_sequence_entry fuel maxNest p false
  | .indentlessSequenceEntry =>
    yaml_parser_parse_indentless_sequence_entry fuel maxNest p
  | .blockMappingFirstKey =>
    yaml_parser_parse_block_mapping_key fuel maxNest p true
  | .blockMappingKey =>
    yaml_parser_parse_block_mapping_key fuel maxNest p false
  | .blockMappingValue =>
    yaml_parser_parse_block_mapping_value fuel maxNest p
  | .flowSequenceFirstEntry =>
    yaml_parser_parse_flow_sequence_entry fuel maxNest p true
  | .flowSequenceEntry =>
    yaml_parser_parse_flow_sequence_entry fuel maxNest p false
  | .flowSequenceEntryMappingKey =>
    yaml_parser_parse_flow_sequence_entry_mapping_key fuel maxNest p
  | .flowSequenceEntryMappingValue =>
    yaml_parser_parse_flow_sequence_entry_mapping_value fuel maxNest p
  | .flowSequenceEntryMappingEnd =>
    yaml_parser_parse_flow_sequence_entry_mapping_end fuel p
  | .flowMappingFirstKey =>
    yaml_parser_parse_flow_mapping_key fuel maxNest p true
  | .flowMappingKey =>
    yaml_parser_parse_flow_mapping_key fuel maxNest p false
  | .flowMappingValue =>
    yaml_parser_parse_flow_mapping_value fuel maxNest p false
  | .flowMappingEmptyValue =>
    yaml_parser_parse_flow_mapping_value fuel maxNest p true
  | .endState => .fail p

/-- The default value of the process-wide `MAX_NESTING_LEVEL` global. -/
def defaultMaxNestingLevel : Int := 1000

/-- `yaml_parser_parse`: the public event-level pull API.  After an error,
after STREAM-END, or in the end state, it keeps returning success with a
zeroed event. -/
def yaml_parser_parse (fuel : Nat) (maxNest : Int) (p : YamlParser) :
    Res YamlEvent :=
  if p.stream_end_produced || p.error != .noError || p.state == .endState then
    .ok p zeroEvent
  else yaml_parser_state_machine fuel maxNest p

end Myyaml

namespace Myyaml

/-! ### Loader (composer): events to the node arena -/

/-- The all-zero node. -/
def zeroNode : YamlNode := ⟨.noNode, [], .noData, zeroMark, zeroMark⟩

/-- `yaml_parser_set_composer_error`. -/
def set_composer_error (p : YamlParser) (problem : String)
    (problem_mark : YamlMark) : YamlParser :=
  { p with
    error := .composerError, problem := problem
    problem_mark := problem_mark }

/-- `yaml_parser_set_composer_error_context`. -/
def set_composer_error_context (p : YamlParser) (context : String)
    (context_mark : YamlMark) (problem : String) (problem_mark : YamlMark) :
    YamlParser :=
  { p with
    error := .composerError, context := some context
    context_mark := context_mark, problem := problem
    problem_mark := problem_mark }

/-- Anchor of a SCALAR event. -/
def YamlEventData.scalarAnchor : YamlEventData → Option (List Nat)
  | .scalar a _ _ _ _ _ _ => a
  | _ => none

/-- Tag of a SCALAR event. -/
def YamlEventData.scalarTag : YamlEventData → Option (List Nat)
  | .scalar _ t _ _ _ _ _ => t
  | _ => none

/-- Value of a SCALAR event. -/
def YamlEventData.evScalarValue : YamlEventData → List Nat
  | .scalar _ _ v _ _ _ _ => v
  | _ => []

/-- Length of a SCALAR event. -/
def YamlEventData.evScalarLength : YamlEventData → Nat
  | .scalar _ _ _ l _ _ _ => l
  | _ => 0

/-- Style of a SCALAR event. -/
def YamlEventData.evScalarStyle : YamlEventData → YamlScalarStyle
  | .scalar _ _ _ _ _ _ s => s
  | _ => .anyStyle

/-- Anchor of a SEQUENCE-START event. -/
def YamlEventData.seqAnchor : YamlEventData → Option (List Nat)
  | .sequenceStart a _ _ _ => a
  | _ => none

/-- Tag of a SEQUENCE-START event. -/
def YamlEventData.seqTag : YamlEventData → Option (List Nat)
  | .sequenceStart _ t _ _ => t
  | _ => none

/-- Style of a SEQUENCE-START event. -/
def YamlEventData.seqStyle : YamlEventData → YamlSequenceStyle
  | .sequenceStart _ _ _ s => s
  | _ => .anyStyle

/-- Anchor of a MAPPING-START event. -/
def YamlEventData.mapAnchor : YamlEventData → Option (List Nat)
  | .mappingStart a _ _ _ => a
  | _ => none

/-- Tag of a MAPPING-START event. -/
def YamlEventData.mapTag : YamlEventData → Option (List Nat)
  | .mappingStart _ t _ _ => t
  | _ => none

/-- Style of a MAPPING-START event. -/
def YamlEventData.mapStyle : YamlEventData → YamlMappingStyle
  | .mappingStart _ _ _ s => s
  | _ => .anyStyle

/-- Anchor of an ALIAS event. -/
def YamlEventData.evAliasAnchor : YamlEventData → List Nat
  | .aliasEv a => a
  | _ => []

/-- Version directive of a DOCUMENT-START event. -/
def YamlEventData.dsVersion : YamlEventData → Option YamlVersionDirective
  | .documentStart v _ _ => v
  | _ => none

/-- Tag directives of a DOCUMENT-START event. -/
def YamlEventData.dsTagDirectives : YamlEventData → List YamlTagDirective
  | .documentStart _ t _ => t
  | _ => []

/-- Implicit flag of a DOCUMENT-START event. -/
def YamlEventData.dsImplicit : YamlEventData → Bool
  | .documentStart _ _ i => i
  | _ => false

/-- Implicit flag of a DOCUMENT-END event. -/
def YamlEventData.deImplicit : YamlEventData → Bool
  | .documentEnd i => i
  | _ => false

/-- `yaml_parser_register_anchor`: record an anchor name for a node id; a
name already registered in this document is a composer error carrying the
first occurrence (context mark) and the second occurrence (problem mark). -/
def yaml_parser_register_anchor (p : YamlParser) (index : Nat)
    (anchor : Option (List Nat)) : YamlParser × Bool :=
  match anchor with
  | none => (p, true)
  | some a =>
    let mark := (p.document.nodes.getD (index - 1) zeroNode).start_mark
    match p.aliases.find? fun ad => ad.anchor = a with
    | some ad =>
      (set_composer_error_context p "found duplicate anchor; first occurrence"
        ad.mark "second occurrence" mark, false)
    | none => ({ p with aliases := p.aliases ++ [⟨a, mark, index⟩] }, true)

/-- `yaml_parser_load_node_add`: attach a freshly composed node to its
parent (sequence item, or mapping-pair key/value assembly). -/
def yaml_parser_load_node_add (p : YamlParser) (ctx : List Nat)
    (index : Nat) : YamlParser × Bool :=
  match ctx.getLast? with
  | none => (p, true)
  | some parent_index =>
    let parent := p.document.nodes.getD (parent_index - 1) zeroNode
    match parent.data with
    | .sequence items style =>
      if ((items.length : Int) < 2147483646) then
        let parent := { parent with data := .sequence (items ++ [index]) style }
        ({ p with document := { p.document with
            nodes := p.document.nodes.set (parent_index - 1) parent } }, true)
      else ({ p with error := .memoryError }, false)
    | .mapping pairs style =>
      match pairs.getLast? with
      | some pr =>
        if pr.key ≠ 0 ∧ pr.value = 0 then
          let parent := { parent with
            data := .mapping (pairs.dropLast ++ [{ pr with value := index }]) style }
          ({ p with document := { p.document with
              nodes := p.document.nodes.set (parent_index - 1) parent } }, true)
        else if ((pairs.length : Int) < 2147483646) then
          let parent := { parent with
            data := .mapping (pairs ++ [⟨index, 0⟩]) style }
          ({ p with document := { p.document with
              nodes := p.document.nodes.set (parent_index - 1) parent } }, true)
        else ({ p with error := .memoryError }, false)
      | none =>
        if ((pairs.length : Int) < 2147483646) then
          let parent := { parent with
            data := .mapping (pairs ++ [⟨index, 0⟩]) style }
          ({ p with document := { p.document with
              nodes := p.document.nodes.set (parent_index - 1) parent } }, true)
        else ({ p with error := .memoryError }, false)
    | _ => (p, false)

/-- `yaml_parser_load_alias`. -/
def yaml_parser_load_alias (p : YamlParser) (event : YamlEvent)
    (ctx : List Nat) : YamlParser × Bool :=
  let anchor := event.data.evAliasAnchor
  match p.aliases.find? fun ad => ad.anchor = anchor with
  | some ad => yaml_parser_load_node_add p ctx ad.index
  | none =>
    (set_composer_error p "found undefined alias" event.start_mark, false)

/-- `yaml_parser_load_scalar`: default tag `tag:yaml.org,2002:str` when the
tag is missing or the non-specific `!`. -/
def yaml_parser_load_scalar (p : YamlParser) (event : YamlEvent)
    (ctx : List Nat) : YamlParser × Bool :=
  let tag := event.data.scalarTag
  let tag := if tag.isNone || tag == some [33] then strBytes "tag:yaml.org,2002:str"
             else tag.getD []
  let node : YamlNode :=
    ⟨.scalar, tag,
      .scalar event.data.evScalarValue event.data.evScalarLength
        event.data.evScalarStyle,
      event.start_mark, event.end_mark⟩
  let p := { p with document := { p.document with
    nodes := p.document.nodes ++ [node] } }
  let index := p.document.nodes.length
  match yaml_parser_register_anchor p index event.data.scalarAnchor with
  | (p, false) => (p, false)
  | (p, true) => yaml_parser_load_node_add p ctx index

/-- `yaml_parser_load_sequence`: default tag `tag:yaml.org,2002:seq`; pushes
the new node id on the composer context stack (returned). -/
def yaml_parser_load_sequence (p : YamlParser) (event : YamlEvent)
    (ctx : List Nat) : (YamlParser × List Nat) × Bool :=
  let tag := event.data.seqTag
  let tag := if tag.isNone || tag == some [33] then strBytes "tag:yaml.org,2002:seq"
             else tag.getD []
  let node : YamlNode :=
    ⟨.sequence, tag, .sequence [] event.data.seqStyle, event.start_mark,
      event.end_mark⟩
  let p := { p with document := { p.document with
    nodes := p.document.nodes ++ [node] } }
  let index := p.document.nodes.length
  match yaml_parser_register_anchor p index event.data.seqAnchor with
  | (p, false) => ((p, ctx), false)
  | (p, true) =>
    match yaml_parser_load_node_add p ctx index with
    | (p, false) => ((p, ctx), false)
    | (p, true) => ((p, ctx ++ [index]), true)

/-- `yaml_parser_load_mapping`: default tag `tag:yaml.org,2002:map`. -/
def yaml_parser_load_mapping (p : YamlParser) (event : YamlEvent)
    (ctx : List Nat) : (YamlParser × List Nat) × Bool :=
  let tag := event.data.mapTag
  let tag := if tag.isNone || tag == some [33] then strBytes "tag:yaml.org,2002:map"
             else tag.getD []
  let node : YamlNode :=
    ⟨.mapping, tag, .mapping [] event.data.mapStyle, event.start_mark,
      event.end_mark⟩
  let p := { p with document := { p.document with
    nodes := p.document.nodes ++ [node] } }
  let index := p.document.nodes.length
  match yaml_parser_register_anchor p index event.data.mapAnchor with
  | (p, false) => ((p, ctx), false)
  | (p, true) =>
    match yaml_parser_load_node_add p ctx index with
    | (p, false) => ((p, ctx), false)
    | (p, true) => ((p, ctx ++ [index]), true)

/-- `yaml_parser_load_sequence_end` / `yaml_parser_load_mapping_end`: stamp
the container's end mark and pop the context stack. -/
def yaml_parser_load_collection_end (p : YamlParser) (event : YamlEvent)
    (ctx : List Nat) : (YamlParser × List Nat) × Bool :=
  match ctx.getLast? with
  | none => ((p, ctx), false)
  | some index =>
    let node := p.document.nodes.getD (index - 1) zeroNode
    let node := { node with end_mark := event.end_mark }
    let p := { p with document := { p.document with
      nodes := p.document.nodes.set (index - 1) node } }
    ((p, ctx.dropLast), true)

/-- Event loop of `yaml_parser_load_nodes`. -/
def yaml_parser_load_nodes_loop (maxNest : Int) :
    Nat → YamlParser → List Nat → Res Unit
  | 0, _, _ => .outOfFuel
  | fuel + 1, p, ctx =>
    match yaml_parser_parse fuel maxNest p with
    | .outOfFuel => .outOfFuel
    | .fail p => .fail p
    | .ok p event =>
      if event.etype == .documentEnd then
        let p := { p with document := { p.document with
          end_implicit := event.data.deImplicit
          end_mark := event.end_mark } }
        .ok p ()
      else
        ((match event.etype with
         | .aliasEv =>
           match yaml_parser_load_alias p event ctx with
           | (p, false) => .fail p
           | (p, true) => .ok p ctx
         | .scalar =>
           match yaml_parser_load_scalar p event ctx with
           | (p, false) => .fail p
           | (p, true) => .ok p ctx
         | .sequenceStart =>
           match yaml_parser_load_sequence p event ctx with
           | ((p, _), false) => .fail p
           | ((p, ctx), true) => .ok p ctx
         | .sequenceEnd =>
           match yaml_parser_load_collection_end p event ctx with
           | ((p, _), false) => .fail p
           | ((p, ctx), true) => .ok p ctx
         | .mappingStart =>
           match yaml_parser_load_mapping p event ctx with
           | ((p, _), false) => .fail p
           | ((p, ctx), true) => .ok p ctx
         | .mappingEnd =>
           match yaml_parser_load_collection_end p event ctx with
           | ((p, _), false) => .fail p
           | ((p, ctx), true) => .ok p ctx
         | _ => .fail p : Res (List Nat))).andThen fun p ctx =>
        yaml_parser_load_nodes_loop maxNest fuel p ctx

/-- `yaml_parser_load_document`. -/
def yaml_parser_load_document (maxNest : Int) (fuel : Nat) (p : YamlParser)
    (event : YamlEvent) : Res Unit :=
  let p := { p with document := { p.document with
    version_directive := event.data.dsVersion
    tag_directives := event.data.dsTagDirectives
    start_implicit := event.data.dsImplicit
    start_mark := event.start_mark } }
  yaml_parser_load_nodes_loop maxNest fuel p []

/-- `yaml_parser_load`: compose the next document of the stream. -/
def yaml_parser_load (fuel : Nat) (maxNest : Int) (p : YamlParser) :
    Res Unit :=
  let p := { p with document := emptyDocument }
  ((if !p.stream_start_produced then
    match yaml_parser_parse fuel maxNest p with
    | .outOfFuel => .outOfFuel
    | .fail p => .fail p
    | .ok p _ => .ok p ()
  else .ok p () : Res Unit)).andThen fun p _ =>
  if p.stream_end_produced then .ok p ()
  else
    match yaml_parser_parse fuel maxNest p with
    | .outOfFuel => .outOfFuel
    | .fail p => .fail p
    | .ok p event =>
      if event.etype == .streamEnd then .ok p ()
      else
        let p := { p with aliases := [] }
        (yaml_parser_load_document maxNest fuel p event).andThen fun p _ =>
        .ok { p with aliases := [] } ()

/-! ### Document accessors -/

/-- `yaml_document_get_node`. -/
def yaml_document_get_node (doc : YamlDocument) (index : Int) :
    Option YamlNode :=
  if 0 < index ∧ index ≤ (doc.nodes.length : Int) then
    some (doc.nodes.getD (index - 1).toNat zeroNode)
  else none

/-- `yaml_document_get_root_node`. -/
def yaml_document_get_root_node (doc : YamlDocument) : Option YamlNode :=
  doc.nodes.head?

/-- Items of a sequence node. -/
def YamlNodeData.seqItems : YamlNodeData → List Nat
  | .sequence items _ => items
  | _ => []

/-- Pairs of a mapping node. -/
def YamlNodeData.mapPairs : YamlNodeData → List YamlNodePair
  | .mapping pairs _ => pairs
  | _ => []

/-- Value bytes of a scalar node. -/
def YamlNodeData.nodeScalarValue : YamlNodeData → List Nat
  | .scalar v _ _ => v
  | _ => []

/-- Length of a scalar node. -/
def YamlNodeData.nodeScalarLength : YamlNodeData → Nat
  | .scalar _ l _ => l
  | _ => 0

/-- `yaml_document_sequence_get_item`: 0-based index into a sequence node;
anything invalid gives 0. -/
def yaml_document_sequence_get_item (doc : YamlDocument)
    (sequence_node_id : Int) (index : Int) : Int :=
  match yaml_document_get_node doc sequence_node_id with
  | none => 0
  | some node =>
    if node.ntype ≠ .sequence then 0
    else
      let items := node.data.seqItems
      if index < 0 ∨ (items.length : Int) ≤ index then 0
      else (items.getD index.toNat 0 : Int)

/-- Pair-walking loop of `yaml_document_mapping_get_value`. -/
def ymgv_loop (doc : YamlDocument) (key : List Nat) (key_length : Nat) :
    List YamlNodePair → Int
  | [] => 0
  | pr :: rest =>
    match yaml_document_get_node doc (pr.key : Int) with
    | none => ymgv_loop doc key key_length rest
    | some k =>
      if k.ntype ≠ .scalar then ymgv_loop doc key key_length rest
      else if k.data.nodeScalarLength = key_length ∧
          k.data.nodeScalarValue.take key_length = key.take key_length then
        (pr.value : Int)
      else ymgv_loop doc key key_length rest

/-- `yaml_document_mapping_get_value`: select a mapping entry whose key is
a scalar matching the given bytes; 0 when not found. -/
def yaml_document_mapping_get_value (doc : YamlDocument)
    (mapping_node_id : Int) (key : List Nat) (key_length : Int) : Int :=
  match yaml_document_get_node doc mapping_node_id with
  | none => 0
  | some node =>
    if node.ntype ≠ .mapping then 0
    else
      let kl : Nat := if key_length < 0 then key.length else key_length.toNat
      ymgv_loop doc key kl node.data.mapPairs

/-- `is_decimal_string`. -/
def is_decimal_string (s : List Nat) : Bool :=
  !s.isEmpty && s.all fun c => 48 ≤ c ∧ c ≤ 57

/-- `atoi` on a decimal byte string. -/
def atoiBytes (s : List Nat) : Int :=
  (s.foldl (fun a c => a * 10 + (c - 48)) 0 : Nat)

/-- Key-walking loop of `yaml_document_get_node_by_path`. -/
def ygnbp_loop (doc : YamlDocument) : List (List Nat) → Int → Int
  | [], current_id => current_id
  | key :: rest, current_id =>
    match yaml_document_get_node doc current_id with
    | none => 0
    | some node =>
      if node.ntype == .mapping then
        let found_id := yaml_document_mapping_get_value doc current_id key (-1)
        if found_id = 0 then 0 else ygnbp_loop doc rest found_id
      else if node.ntype == .sequence then
        if !is_decimal_string key then 0
        else
          let idx := atoiBytes key
          let item_id := yaml_document_sequence_get_item doc current_id idx
          if item_id = 0 then 0 else ygnbp_loop doc rest item_id
      else 0

/-- `yaml_document_get_node_by_path`: walk a key path from the root; keys
select mapping entries by scalar match, and on sequences a decimal-only key
is a zero-based index; any other shape gives 0. -/
def yaml_document_get_node_by_path (doc : YamlDocument)
    (keys : List (List Nat)) (key_count : Int) : Int :=
  if key_count ≤ 0 then 0
  else
    let current_id : Int :=
      if doc.nodes.isEmpty then 0 else 1
    if current_id = 0 then 0
    else ygnbp_loop doc (keys.take key_count.toNat) current_id

/-! ### Emitter: event accumulation (need_more_events) -/

/-- The nesting delta an event contributes in the emitter's lookahead scan:
start events open a level, end events close one. -/
def eventLevelDelta (e : YamlEvent) : Int :=
  match e.etype with
  | .streamStart | .documentStart | .sequenceStart | .mappingStart => 1
  | .streamEnd | .documentEnd | .sequenceEnd | .mappingEnd => -1
  | _ => 0

/-- The level-tracking scan of `yaml_emitter_need_more_events`: walk the
queued events; once the level returns to zero no more events are needed. -/
def nmeScan : List YamlEvent → Int → Bool
  | [], _ => true
  | e :: rest, level =>
    let level := level + eventLevelDelta e
    if level == 0 then false else nmeScan rest level

/-- `yaml_emitter_need_more_events` (a function of the emitter's event
queue, the only state it reads): accumulate 1 extra event after
DOCUMENT-START, 2 after SEQUENCE-START, 3 after MAPPING-START; none
otherwise. -/
def yaml_emitter_need_more_events (events : List YamlEvent) : Bool :=
  match events.head? with
  | none => true
  | some e =>
    let accumulate : Nat :=
      match e.etype with
      | .documentStart => 1
      | .sequenceStart => 2
      | .mappingStart => 3
      | _ => 0
    if accumulate = 0 then false
    else if accumulate < events.length then false
    else nmeScan events 0

/-- `yaml_emitter_check_empty_sequence`. -/
def yaml_emitter_check_empty_sequence (events : List YamlEvent) : Bool :=
  if events.length < 2 then false
  else (events.getD 0 zeroEvent).etype == .sequenceStart &&
    (events.getD 1 zeroEvent).etype == .sequenceEnd

/-- `yaml_emitter_check_empty_mapping`. -/
def yaml_emitter_check_empty_mapping (events : List YamlEvent) : Bool :=
  if events.length < 2 then false
  else (events.getD 0 zeroEvent).etype == .mappingStart &&
    (events.getD 1 zeroEvent).etype == .mappingEnd

end Myyaml

namespace Myyaml

/-! ### Drivers for whole-stream runs -/

/-- Pull events until STREAM-END (at most `n` calls), collecting them. -/
def parseAll (maxNest : Int) (fuel : Nat) : Nat → YamlParser →
    Res (List YamlEvent)
  | 0, p => .ok p []
  | n + 1, p =>
    match yaml_parser_parse fuel maxNest p with
    | .outOfFuel => .outOfFuel
    | .fail p => .fail p
    | .ok p e =>
      if e.etype == .streamEnd then .ok p [e]
      else (parseAll maxNest fuel n p).andThen fun p es => .ok p (e :: es)

/-- The event kinds and payloads produced by a complete, successful parse of
the input (`none` if any call to `yaml_parser_parse` fails). -/
def parsedEvents (input : List Nat) (fuel n : Nat) (maxNest : Int) :
    Option (List (YamlEventType × YamlEventData)) :=
  match parseAll maxNest fuel n (initParser input) with
  | .ok _ es => some (es.map fun e => (e.etype, e.data))
  | _ => none

/-- The error recorded by the first failing `yaml_parser_parse` call on the
input (`none` if no call fails). -/
def parseFailure (input : List Nat) (fuel n : Nat) (maxNest : Int) :
    Option (YamlErrorType × String × YamlMark) :=
  match parseAll maxNest fuel n (initParser input) with
  | .fail p => some (p.error, p.problem, p.problem_mark)
  | _ => none

/-- The document composed by `yaml_parser_load` from the input. -/
def loadDocOutcome (input : List Nat) (fuel : Nat) (maxNest : Int) :
    Option YamlDocument :=
  match yaml_parser_load fuel maxNest (initParser input) with
  | .ok p _ => some p.document
  | _ => none

end Myyaml

namespace Myyaml

/-! ### Spec-side definitions used in the claim statements -/

/-- The error fields recorded by a failing `yaml_parser_load` call. -/
def loadFailure (input : List Nat) (fuel : Nat) (maxNest : Int) :
    Option (YamlErrorType × String × Option String × YamlMark × YamlMark) :=
  match yaml_parser_load fuel maxNest (initParser input) with
  | .fail p => some (p.error, p.problem, p.context, p.context_mark, p.problem_mark)
  | _ => none

/-- The staleness condition on a simple-key candidate, as the specification
states it: the candidate is still `possible` but the scanner's position has
crossed onto a later line than the candidate's origin or advanced more than
1024 positions past its start. -/
def staleCond (p : YamlParser) (sk : YamlSimpleKey) : Prop :=
  sk.possible = true ∧
    (sk.mark.line < p.mark.line ∨ sk.mark.index + 1024 < p.mark.index)

instance (p : YamlParser) (sk : YamlSimpleKey) : Decidable (staleCond p sk) :=
  inferInstanceAs (Decidable (_ ∧ _))

/-- Clearing a candidate when it is stale (the silent invalidation). -/
def clearStale (p : YamlParser) (sk : YamlSimpleKey) : YamlSimpleKey :=
  if staleCond p sk then { sk with possible := false } else sk

/-- Byte strings that are concatenations of UTF-8 encodings of characters
from the reader's allowed range — the property language for "decoding
yields no control characters outside the allowed set". -/
inductive AllowedChars : List Nat → Prop
| nil : AllowedChars []
| snoc (bytes : List Nat) (v : Nat) :
    AllowedChars bytes → allowedChar v = true →
    AllowedChars (bytes ++ utf8Encode v)

/-- How many events beyond nothing the emitter accumulates for a given head
event (spec: 1 after DOCUMENT-START, 2 after SEQUENCE-START, 3 after
MAPPING-START, 0 otherwise). -/
def accumulateFor (e : YamlEvent) : Nat :=
  match e.etype with
  | .documentStart => 1
  | .sequenceStart => 2
  | .mappingStart => 3
  | _ => 0

/-- Net nesting level of a queue of events. -/
def queueLevel (events : List YamlEvent) : Int :=
  (events.map eventLevelDelta).sum

/-- The specification-level characterisation of when the emitter must keep
buffering (the amended claim): the queue is empty, or the head is a
DOCUMENT-START / SEQUENCE-START / MAPPING-START whose accumulation count is
not yet exceeded and no nonempty prefix of the queue is balanced (nesting
level back to zero). -/
def needMoreEventsSpec (events : List YamlEvent) : Bool :=
  match events.head? with
  | none => true
  | some e =>
    accumulateFor e != 0 && decide (events.length ≤ accumulateFor e) &&
    !((List.range events.length).any fun k =>
      queueLevel (events.take (k + 1)) == 0)

/-- Spec-level emptiness of a sequence: the start event is immediately
followed by the matching end event. -/
def checkEmptySeqSpec (events : List YamlEvent) : Bool :=
  match events with
  | e1 :: e2 :: _ => e1.etype == .sequenceStart && e2.etype == .sequenceEnd
  | _ => false

/-- Spec-level emptiness of a mapping. -/
def checkEmptyMapSpec (events : List YamlEvent) : Bool :=
  match events with
  | e1 :: e2 :: _ => e1.etype == .mappingStart && e2.etype == .mappingEnd
  | _ => false

end Myyaml

namespace Myyaml

set_option maxRecDepth 100000

/-! ### Claim theorems -/

/-- Claim C1: for the input stream `key: value\n`, successive calls to
`yaml_parser_parse` produce exactly the event sequence StreamStart,
DocumentStart(implicit), MappingStart(implicit, block style),
Scalar("key", plain), Scalar("value", plain), MappingEnd,
DocumentEnd(implicit), StreamEnd, and every call returns success. -/
theorem c1_event_sequence :
    parsedEvents (strBytes "key: value\n") 64 20 1000 =
      some [(.streamStart, .streamStart .utf8),
        (.documentStart, .documentStart none [] true),
        (.mappingStart, .mappingStart none none true .block),
        (.scalar, .scalar none none (strBytes "key") 3 true false .plain),
        (.scalar, .scalar none none (strBytes "value") 5 true false .plain),
        (.mappingEnd, .noData),
        (.documentEnd, .documentEnd true),
        (.streamEnd, .noData)] := by decide

/-- Claim C2, counterexample: on the document loaded from
`root:\n  items:\n    - a\n    - b\n    - c\n`, the path `["items","1"]`
(count 2) resolves to 0, not to a nonzero scalar id: the lookup starts at
the root mapping, whose only key is `root`. -/
theorem c2_counterexample :
    (loadDocOutcome (strBytes "root:\n  items:\n    - a\n    - b\n    - c\n")
        64 1000).map
      (fun doc =>
        yaml_document_get_node_by_path doc [strBytes "items", strBytes "1"] 2) =
    some 0 := by decide

/-- Claim C2, amended: on the same document the path
`["root","items","1"]` (count 3) resolves to a nonzero node id whose node
is a scalar with bytes `b` and scalar length 1; keys select mapping
entries by scalar match and on sequences a decimal-only key is a
zero-based index (`["root","items","2"]` reaches the scalar `c`), while
any other shape fails with 0: a non-decimal key on a sequence
(`["root","items","x"]`), traversal into a scalar
(`["root","items","1","k"]`) and an out-of-range index
(`["root","items","5"]`) all return 0. -/
theorem c2_path_lookup :
    ((loadDocOutcome (strBytes "root:\n  items:\n    - a\n    - b\n    - c\n")
        64 1000).map
      (fun doc =>
        let i := yaml_document_get_node_by_path doc
          [strBytes "root", strBytes "items", strBytes "1"] 3
        (decide (i ≠ 0),
         (yaml_document_get_node doc i).map fun n =>
           (n.ntype, n.data.nodeScalarValue, n.data.nodeScalarLength))) =
    some (true, some (.scalar, strBytes "b", 1))) ∧
    ((loadDocOutcome (strBytes "root:\n  items:\n    - a\n    - b\n    - c\n")
        64 1000).map
      (fun doc =>
        ((yaml_document_get_node doc (yaml_document_get_node_by_path doc
            [strBytes "root", strBytes "items", strBytes "2"] 3)).map
          (fun n => (n.ntype, n.data.nodeScalarValue)),
         yaml_document_get_node_by_path doc
           [strBytes "root", strBytes "items", strBytes "x"] 3,
         yaml_document_get_node_by_path doc
           [strBytes "root", strBytes "items", strBytes "1", strBytes "k"] 4,
         yaml_document_get_node_by_path doc
           [strBytes "root", strBytes "items", strBytes "5"] 3)) =
    some (some (.scalar, strBytes "c"), 0, 0, 0)) := by
  exact ⟨by decide, by decide⟩

/-- Claim C3, counterexample: when a custom `%TAG ! e:` directive is
registered, a tag token with handle `!` and suffix `f` resolves to `e:f`,
not to the verbatim `!f` the claim promises: handle `!` is resolved through
the tag-directive table like any other handle (the default `! -> !`
directive merely makes the two coincide when no custom directive is
present). -/
theorem c3_counterexample :
    parsedEvents (strBytes "%TAG ! e:\n---\n!f x\n") 64 20 1000 =
      some [(.streamStart, .streamStart .utf8),
        (.documentStart, .documentStart none [⟨[33], strBytes "e:"⟩] false),
        (.scalar, .scalar none (some (strBytes "e:f")) (strBytes "x") 1
          false false .plain),
        (.documentEnd, .documentEnd true),
        (.streamEnd, .noData)] ∧
    strBytes "e:f" ≠ strBytes "!f" := by decide

/-- Claim C3, amended: tag resolution works as follows.  An empty handle
(a verbatim tag) resolves to the suffix itself.  A nonempty handle is
looked up in the registered tag directives by handle equality (duplicate
handles are rejected on registration, so at most one directive matches)
and the final tag is that directive's prefix concatenated with the suffix;
in particular, while the default directive `! -> !` is the one matching
the handle `!`, the final tag is `!suffix`.  If no registered directive
matches, parsing fails with the parser error "found undefined tag handle"
placed at the tag token. -/
theorem c3_tag_resolution (p : YamlParser) (h s : List Nat)
    (td : YamlTagDirective) (value : YamlTagDirective) (sm tm : YamlMark)
    (mark : YamlMark) :
    (yaml_parser_resolve_tag p (some []) (some s) sm tm = .ok p (some s)) ∧
    (p.tag_directives.find? (fun td' => td'.handle = h) = some td → h ≠ [] →
      yaml_parser_resolve_tag p (some h) (some s) sm tm =
        .ok p (some (td.pfx ++ s))) ∧
    (p.tag_directives.find? (fun td' => td'.handle = h) = none → h ≠ [] →
      yaml_parser_resolve_tag p (some h) (some s) sm tm =
        .fail (set_parser_error_context p "while parsing a node" sm
          "found undefined tag handle" tm)) ∧
    (p.tag_directives.find? (fun td' => td'.handle = [33]) = some ⟨[33], [33]⟩ →
      yaml_parser_resolve_tag p (some [33]) (some s) sm tm =
        .ok p (some (33 :: s))) ∧
    ((p.tag_directives.any fun td' => td'.handle = value.handle) = true →
      yaml_parser_append_tag_directive p value false mark =
        (set_parser_error p "found duplicate %TAG directive" mark, false)) := by
  refine ⟨?_, ?_, ?_, ?_, ?_⟩
  · simp [yaml_parser_resolve_tag]
  · intro hfind hne
    simp [yaml_parser_resolve_tag, hfind, hne]
  · intro hfind hne
    simp [yaml_parser_resolve_tag, hfind, hne]
  · intro hfind
    simp [yaml_parser_resolve_tag, hfind]
  · intro hany
    simp [yaml_parser_append_tag_directive, hany]

/-- Witness for the amended C3 theorem at concrete inputs. -/
theorem c3_tag_resolution_witness :
    (yaml_parser_resolve_tag (initParser []) (some []) (some [102]) zeroMark
        zeroMark = .ok (initParser []) (some [102])) ∧
    (yaml_parser_resolve_tag
        { initParser [] with tag_directives := [⟨[33], strBytes "e:"⟩] }
        (some [33]) (some [102]) zeroMark zeroMark =
      .ok { initParser [] with tag_directives := [⟨[33], strBytes "e:"⟩] }
        (some (strBytes "e:" ++ [102]))) ∧
    (yaml_parser_resolve_tag (initParser []) (some [33, 97, 33]) (some [102])
        zeroMark zeroMark =
      .fail (set_parser_error_context (initParser []) "while parsing a node"
        zeroMark "found undefined tag handle" zeroMark)) := by
  refine ⟨(c3_tag_resolution (initParser []) [] [102] ⟨[], []⟩ ⟨[], []⟩ zeroMark
    zeroMark zeroMark).1, ?_, ?_⟩
  · exact (c3_tag_resolution
      { initParser [] with tag_directives := [⟨[33], strBytes "e:"⟩] }
      [33] [102] ⟨[33], strBytes "e:"⟩ ⟨[], []⟩ zeroMark zeroMark
      zeroMark).2.1 (by decide) (by decide)
  · exact (c3_tag_resolution (initParser []) [33, 97, 33] [102] ⟨[], []⟩
      ⟨[], []⟩ zeroMark zeroMark zeroMark).2.2.1 (by decide) (by decide)

/-- Claim C4, counterexample: with the maximum nesting level set to 2, the
block input `- - a\n`, whose nesting is exactly at the maximum, fails with
the nesting-limit parser error (at the second `-`), while the flow input
`[[[a]]]\n`, whose nesting exceeds the maximum by one, parses successfully:
the claim's "at the maximum succeeds, one deeper fails" boundary holds in
neither direction. -/
theorem c4_counterexample :
    parseFailure (strBytes "- - a\n") 64 20 2 =
      some (.parserError,
        "Maximum nesting level reached, set with yaml_set_max_nest_level())",
        ⟨2, 0, 2⟩) ∧
    (parsedEvents (strBytes "[[[a]]]\n") 64 20 2).map
        (List.map Prod.fst) =
      some [.streamStart, .documentStart, .sequenceStart, .sequenceStart,
        .sequenceStart, .scalar, .sequenceEnd, .sequenceEnd, .sequenceEnd,
        .documentEnd, .streamEnd] ∧
    (parsedEvents (strBytes "- a\n") 64 20 2).map (List.map Prod.fst) =
      some [.streamStart, .documentStart, .sequenceStart, .scalar,
        .sequenceEnd, .documentEnd, .streamEnd] := by decide

/-- Claim C4, amended: the nesting guard is evaluated when the parser
consumes a collection-start token; it fails, with the parser error
"Maximum nesting level reached" positioned at that token, exactly when the
scanner-side number of open block indentation levels has reached the
maximum minus the scanner-side flow level at that moment.  Because the
scanner may have scanned arbitrarily far ahead of the event the parser is
producing, this neither bounds flow nesting by the maximum nor admits
block nesting equal to the maximum. -/
theorem c4_nesting_guard (fuel : Nat) (maxNest : Int) (p : YamlParser)
    (tok : YamlToken) (block ind : Bool)
    (h1 : p.token_available = true) (h2 : p.tokens.head? = some tok)
    (h3 : tok.ttype = .flowSequenceStart ∨ tok.ttype = .flowMappingStart ∨
      (block = true ∧ (tok.ttype = .blockSequenceStart ∨
        tok.ttype = .blockMappingStart)))
    (h4 : ¬((p.indents.length : Int) < maxNest - (p.flow_level : Int))) :
    yaml_parser_parse_node fuel maxNest p block ind =
      .fail (yaml_maximum_level_reached { p with error := .memoryError }
        tok.start_mark tok.start_mark) := by
  have h4' : maxNest ≤ (p.indents.length : Int) + (p.flow_level : Int) := by
    omega
  rcases h3 with h3 | h3 | ⟨hb, h3 | h3⟩
  · simp +decide [yaml_parser_parse_node, peekToken, h1, h2, Res.andThen,
      yaml_parser_parse_node_props, yaml_parser_resolve_tag, h3, h4, h4']
  · simp +decide [yaml_parser_parse_node, peekToken, h1, h2, Res.andThen,
      yaml_parser_parse_node_props, yaml_parser_resolve_tag, h3, h4, h4']
  · subst hb
    simp +decide [yaml_parser_parse_node, peekToken, h1, h2, Res.andThen,
      yaml_parser_parse_node_props, yaml_parser_resolve_tag, h3, h4']
  · subst hb
    simp +decide [yaml_parser_parse_node, peekToken, h1, h2, Res.andThen,
      yaml_parser_parse_node_props, yaml_parser_resolve_tag, h3, h4']

/-- Witness for the amended C4 theorem: a parser holding a
FLOW-SEQUENCE-START token with the maximum nesting level 0 fails with the
nesting-limit error. -/
theorem c4_nesting_guard_witness :
    yaml_parser_parse_node 1 0
        { initParser [] with
          token_available := true
          tokens := [⟨.flowSequenceStart, .noData, zeroMark, zeroMark⟩] }
        true false =
      .fail (yaml_maximum_level_reached
        { { initParser [] with
            token_available := true
            tokens := [⟨.flowSequenceStart, .noData, zeroMark, zeroMark⟩] }
          with error := .memoryError } zeroMark zeroMark) :=
  c4_nesting_guard 1 0
    { initParser [] with
      token_available := true
      tokens := [⟨.flowSequenceStart, .noData, zeroMark, zeroMark⟩] }
    ⟨.flowSequenceStart, .noData, zeroMark, zeroMark⟩ true false rfl rfl
    (Or.inl rfl) (by decide)

/-- Claim C6: a %YAML directive token whose major version differs from 1,
or whose minor version is neither 1 nor 2, makes directive processing fail
with the parser error "found incompatible YAML document" at the directive
token; concretely, `%YAML 1.3` and `%YAML 2.0` streams fail with that
error while `%YAML 1.1` and `%YAML 1.2` streams parse, carrying the
version in their DOCUMENT-START event. -/
theorem c6_version_check (fuel : Nat) (p : YamlParser) (tok : YamlToken)
    (h1 : p.token_available = true) (h2 : p.tokens.head? = some tok)
    (h3 : tok.ttype = .versionDirective)
    (h4 : tok.data.vdMajor ≠ 1 ∨
      (tok.data.vdMinor ≠ 1 ∧ tok.data.vdMinor ≠ 2)) :
    (ypd_loop (fuel + 1) p none [] =
      .fail (set_parser_error p "found incompatible YAML document"
        tok.start_mark)) ∧
    parsedEvents (strBytes "%YAML 1.1\n---\na\n") 64 20 1000 =
      some [(.streamStart, .streamStart .utf8),
        (.documentStart, .documentStart (some ⟨1, 1⟩) [] false),
        (.scalar, .scalar none none [97] 1 true false .plain),
        (.documentEnd, .documentEnd true),
        (.streamEnd, .noData)] ∧
    parsedEvents (strBytes "%YAML 1.2\n---\na\n") 64 20 1000 =
      some [(.streamStart, .streamStart .utf8),
        (.documentStart, .documentStart (some ⟨1, 2⟩) [] false),
        (.scalar, .scalar none none [97] 1 true false .plain),
        (.documentEnd, .documentEnd true),
        (.streamEnd, .noData)] ∧
    parseFailure (strBytes "%YAML 1.3\n---\na\n") 64 20 1000 =
      some (.parserError, "found incompatible YAML document", ⟨0, 0, 0⟩) ∧
    parseFailure (strBytes "%YAML 2.0\n---\na\n") 64 20 1000 =
      some (.parserError, "found incompatible YAML document", ⟨0, 0, 0⟩) := by
  refine ⟨?_, by decide, by decide, by decide, by decide⟩
  simp [ypd_loop, peekToken, h1, h2, Res.andThen, h3]
  intro ha hb
  rcases h4 with h | ⟨m1, m2⟩
  · exact absurd ha h
  · exact absurd (hb m1) m2

/-- Witness for the C6 theorem: a parser holding a `%YAML 1.3` directive
token fails with "found incompatible YAML document". -/
theorem c6_version_check_witness :
    ypd_loop 1
        { initParser [] with
          token_available := true
          tokens := [⟨.versionDirective, .versionDirective 1 3, zeroMark,
            zeroMark⟩] }
        none [] =
      .fail (set_parser_error
        { initParser [] with
          token_available := true
          tokens := [⟨.versionDirective, .versionDirective 1 3, zeroMark,
            zeroMark⟩] }
        "found incompatible YAML document" zeroMark) :=
  (c6_version_check 0
    { initParser [] with
      token_available := true
      tokens := [⟨.versionDirective, .versionDirective 1 3, zeroMark,
        zeroMark⟩] }
    ⟨.versionDirective, .versionDirective 1 3, zeroMark, zeroMark⟩ rfl rfl
    rfl (by decide)).1

/-- Claim C7: registering an anchor name already present in the alias
registry fails with a composer error whose context mark is the first
occurrence's node mark and whose problem mark is the new (second) node's
mark; a fresh name is appended to the registry, mapped to the new node's
index.  Concretely, loading `a: &x 1\nb: &x 2\n` fails with the composer
error "second occurrence" (context "found duplicate anchor; first
occurrence"), the context mark at the first `&x` node and the problem mark
at the second. -/
theorem c7_duplicate_anchor (p : YamlParser) (index : Nat) (a : List Nat)
    (ad : YamlAliasData) :
    ((p.aliases.find? fun ad' => ad'.anchor = a) = some ad →
      yaml_parser_register_anchor p index (some a) =
        (set_composer_error_context p
          "found duplicate anchor; first occurrence" ad.mark
          "second occurrence"
          (p.document.nodes.getD (index - 1) zeroNode).start_mark, false)) ∧
    ((p.aliases.find? fun ad' => ad'.anchor = a) = none →
      yaml_parser_register_anchor p index (some a) =
        ({ p with aliases := p.aliases ++
            [⟨a, (p.document.nodes.getD (index - 1) zeroNode).start_mark,
              index⟩] }, true)) ∧
    loadFailure (strBytes "a: &x 1\nb: &x 2\n") 64 1000 =
      some (.composerError, "second occurrence",
        some "found duplicate anchor; first occurrence",
        ⟨3, 0, 3⟩, ⟨11, 1, 3⟩) := by
  refine ⟨?_, ?_, by decide⟩
  · intro hfind
    simp [yaml_parser_register_anchor, hfind]
  · intro hfind
    simp [yaml_parser_register_anchor, hfind]

/-- Witness for the C7 theorem: with `x` registered at the zero mark,
re-registering `x` for node 1 fails with both marks, and registering the
fresh name `y` extends the registry. -/
theorem c7_duplicate_anchor_witness :
    (yaml_parser_register_anchor
        { initParser [] with aliases := [⟨[120], zeroMark, 1⟩] } 1
        (some [120]) =
      (set_composer_error_context
        { initParser [] with aliases := [⟨[120], zeroMark, 1⟩] }
        "found duplicate anchor; first occurrence" zeroMark
        "second occurrence" zeroMark, false)) ∧
    (yaml_parser_register_anchor
        { initParser [] with aliases := [⟨[120], zeroMark, 1⟩] } 1
        (some [121]) =
      ({ initParser [] with
          aliases := [⟨[120], zeroMark, 1⟩, ⟨[121], zeroMark, 1⟩] }, true)) := by
  constructor
  · exact (c7_duplicate_anchor
      { initParser [] with aliases := [⟨[120], zeroMark, 1⟩] } 1 [120]
      ⟨[120], zeroMark, 1⟩).1 (by decide)
  · exact (c7_duplicate_anchor
      { initParser [] with aliases := [⟨[120], zeroMark, 1⟩] } 1 [121]
      ⟨[120], zeroMark, 1⟩).2.1 (by decide)

/-- Claim C10: once an error has been recorded or STREAM-END has been
produced, every further `yaml_parser_parse` and `yaml_parser_scan` call
returns success with the output event or token zeroed (type none) and
leaves the parser completely unchanged. -/
theorem c10_sticky_termination (fuel : Nat) (maxNest : Int) (p : YamlParser)
    (h : p.stream_end_produced = true ∨ p.error ≠ .noError) :
    yaml_parser_parse fuel maxNest p = .ok p zeroEvent ∧
    yaml_parser_scan fuel p = .ok p zeroToken := by
  rcases h with h | h
  · constructor
    · simp [yaml_parser_parse, h]
    · simp [yaml_parser_scan, h]
  · constructor
    · simp [yaml_parser_parse, h]
    · simp [yaml_parser_scan, h]

/-- Witness for the C10 theorem: on a parser whose STREAM-END has been
produced (and on one carrying an error), parse and scan return the zero
event and token with the parser untouched. -/
theorem c10_sticky_termination_witness :
    (yaml_parser_parse 1 1000
        { initParser [] with stream_end_produced := true } =
      .ok { initParser [] with stream_end_produced := true } zeroEvent) ∧
    (yaml_parser_scan 1 { initParser [] with error := .readerError } =
      .ok { initParser [] with error := .readerError } zeroToken) :=
  ⟨(c10_sticky_termination 1 1000
      { initParser [] with stream_end_produced := true }
      (Or.inl rfl)).1,
   (c10_sticky_termination 1 1000
      { initParser [] with error := .readerError }
      (Or.inr (by decide))).2⟩

/-- Claim C9, counterexample: with the queue holding SEQUENCE-START
immediately followed by SEQUENCE-END, `yaml_emitter_need_more_events`
already answers false after buffering only one event beyond the
SEQUENCE-START, not the two the claim promises: the scan stops as soon as
a prefix of the queue is balanced. -/
theorem c9_counterexample :
    yaml_emitter_need_more_events
        [⟨.sequenceStart, .sequenceStart none none true .flow, zeroMark,
          zeroMark⟩,
         ⟨.sequenceEnd, .noData, zeroMark, zeroMark⟩] = false ∧
    yaml_emitter_need_more_events
        [⟨.sequenceStart, .sequenceStart none none true .flow, zeroMark,
          zeroMark⟩,
         ⟨.scalar, .scalar none none [97] 1 true false .plain, zeroMark,
          zeroMark⟩] = true := by decide

/-- Level delta of one queued event, unfolded over a cons cell. -/
theorem queueLevel_cons (e : YamlEvent) (t : List YamlEvent) :
    queueLevel (e :: t) = eventLevelDelta e + queueLevel t := by
  simp [queueLevel]

/-- The level-tracking scan returns true exactly when no nonempty prefix of
the queue brings the running level back to zero. -/
theorem nmeScan_eq (l : List YamlEvent) (level : Int) :
    nmeScan l level =
      !((List.range l.length).any fun k =>
        level + queueLevel (l.take (k + 1)) == 0) := by
  induction l generalizing level with
  | nil => simp [nmeScan]
  | cons e rest ih =>
    simp only [nmeScan, List.length_cons, List.range_succ_eq_map,
      List.any_cons, List.any_map, List.take_succ_cons, queueLevel_cons]
    cases hb : ((level + eventLevelDelta e) == 0) with
    | true =>
      simp [queueLevel, hb]
    | false =>
      simp [queueLevel, hb, ih, add_assoc]
      congr 1

/-- Claim C9, amended: the emitter keeps buffering exactly when the queue
is empty, or its head is DOCUMENT-START, SEQUENCE-START or MAPPING-START,
the queue holds no more than 1, 2 or 3 events respectively, and no
nonempty prefix of the queue is balanced (the running nesting level never
returns to zero).  So at most 1, 2 or 3 events accumulate beyond the head,
but buffering can also stop earlier, as soon as a balanced prefix decides
emptiness.  A container is classified empty exactly when the queue holds
at least two events, the first being the container's start and the second
the matching end. -/
theorem c9_event_accumulation (events : List YamlEvent) :
    (yaml_emitter_need_more_events events = needMoreEventsSpec events) ∧
    (yaml_emitter_check_empty_sequence events = checkEmptySeqSpec events) ∧
    (yaml_emitter_check_empty_mapping events = checkEmptyMapSpec events) := by
  refine ⟨?_, ?_, ?_⟩
  · cases events with
    | nil => simp [yaml_emitter_need_more_events, needMoreEventsSpec]
    | cons e rest =>
      obtain ⟨et, d, sm, em⟩ := e
      cases et <;>
        simp [yaml_emitter_need_more_events, needMoreEventsSpec,
          accumulateFor, nmeScan_eq, queueLevel]
      all_goals rw [← decide_not]
      all_goals congr 1
      · exact decide_eq_decide.mpr
          (by simp [Nat.not_lt, Nat.le_zero, List.length_eq_zero])
      · exact decide_eq_decide.mpr (by omega)
      · exact decide_eq_decide.mpr (by omega)
  · rcases events with _ | ⟨e1, _ | ⟨e2, t⟩⟩ <;>
      simp [yaml_emitter_check_empty_sequence, checkEmptySeqSpec]
  · rcases events with _ | ⟨e1, _ | ⟨e2, t⟩⟩ <;>
      simp [yaml_emitter_check_empty_mapping, checkEmptyMapSpec]

/-- Claim C5, counterexample: the invalidation threshold counts
characters, not bytes.  Skipping 600 two-byte UTF-8 characters (1200
bytes) advances `mark.index` by only 600, and with the scanner 600 index
positions (1200 bytes) past a required candidate's start on the same
line, the stale-key sweep keeps the candidate valid and succeeds —
under the claim's byte rule it would have been invalidated with the
scanner error.  The code's threshold is strictly more than 1024
characters: at index 1024 the candidate is still kept, at 1025 the sweep
fails with "could not find expected ':'". -/
theorem c5_counterexample :
    ((List.replicate 600 [208, 177]).flatten.length = 1200) ∧
    ((skipN 600
        { initParser [] with
          buffer := (List.replicate 600 [208, 177]).flatten,
          unread := 600 }).mark = ⟨600, 0, 600⟩) ∧
    (yaml_parser_stale_simple_keys
        { initParser [] with
          mark := ⟨600, 0, 600⟩,
          simple_keys := [⟨0, zeroMark, true, true⟩] } =
      ({ initParser [] with
         mark := ⟨600, 0, 600⟩,
         simple_keys := [⟨0, zeroMark, true, true⟩] }, true)) ∧
    (yaml_parser_stale_simple_keys
        { initParser [] with
          mark := ⟨1024, 0, 1024⟩,
          simple_keys := [⟨0, zeroMark, true, true⟩] } =
      ({ initParser [] with
         mark := ⟨1024, 0, 1024⟩,
         simple_keys := [⟨0, zeroMark, true, true⟩] }, true)) ∧
    (yaml_parser_stale_simple_keys
        { initParser [] with
          mark := ⟨1025, 0, 1025⟩,
          simple_keys := [⟨0, zeroMark, true, true⟩] } =
      (set_scanner_error
        { initParser [] with
          mark := ⟨1025, 0, 1025⟩,
          simple_keys := [⟨0, zeroMark, true, true⟩] }
        (some "while scanning a simple key") zeroMark
        "could not find expected ':'", false)) := by decide

/-- The stale-key sweep over candidates none of which is both stale and
required: every stale candidate is cleared in place, the rest are kept. -/
theorem ssk_go_clean (p : YamlParser) :
    ∀ (l acc : List YamlSimpleKey),
      (∀ sk ∈ l, ¬(staleCond p sk ∧ sk.required = true)) →
      yaml_parser_stale_simple_keys_go p acc l =
        ({ p with simple_keys := acc ++ l.map (clearStale p) }, true)
  | [], acc, _ => by simp [yaml_parser_stale_simple_keys_go]
  | sk :: rest, acc, h => by
    have hsk := h sk (by simp)
    have hrest : ∀ sk' ∈ rest, ¬(staleCond p sk' ∧ sk'.required = true) :=
      fun sk' hm => h sk' (by simp [hm])
    by_cases hc : staleCond p sk
    · have hr : sk.required = false := by
        cases hreq : sk.required
        · rfl
        · exact absurd ⟨hc, hreq⟩ hsk
      have hc' := hc
      rw [staleCond] at hc'
      simp only [yaml_parser_stale_simple_keys_go, hc', hr, if_true, if_pos,
        Bool.false_eq_true, if_false, and_self, true_and, and_true]
      rw [ssk_go_clean p rest _ hrest]
      simp [clearStale, hc, hr]
    · have hc' := hc
      rw [staleCond] at hc'
      simp only [yaml_parser_stale_simple_keys_go]
      rw [if_neg hc']
      rw [ssk_go_clean p rest _ hrest]
      simp [clearStale, hc]

/-- The stale-key sweep when the first stale-and-required candidate sits
after a prefix of harmless ones: the error is raised at that candidate,
with the prefix's stale entries already cleared. -/
theorem ssk_go_err (p : YamlParser) (sk : YamlSimpleKey)
    (hc : staleCond p sk) (hr : sk.required = true) :
    ∀ (pre acc rest : List YamlSimpleKey),
      (∀ sk' ∈ pre, ¬(staleCond p sk' ∧ sk'.required = true)) →
      yaml_parser_stale_simple_keys_go p acc (pre ++ sk :: rest) =
        (set_scanner_error
          { p with simple_keys := acc ++ pre.map (clearStale p) ++ sk :: rest }
          (some "while scanning a simple key") sk.mark
          "could not find expected ':'", false)
  | [], acc, rest, _ => by
    have hc' := hc
    rw [staleCond] at hc'
    simp only [List.nil_append, yaml_parser_stale_simple_keys_go]
    rw [if_pos hc', if_pos hr]
    simp
  | pre1 :: pre, acc, rest, h => by
    have hp1 := h pre1 (by simp)
    have hpre : ∀ sk' ∈ pre, ¬(staleCond p sk' ∧ sk'.required = true) :=
      fun sk' hm => h sk' (by simp [hm])
    by_cases hc1 : staleCond p pre1
    · have hr1 : pre1.required = false := by
        cases hreq : pre1.required
        · rfl
        · exact absurd ⟨hc1, hreq⟩ hp1
      have hc1' := hc1
      rw [staleCond] at hc1'
      simp only [List.cons_append, yaml_parser_stale_simple_keys_go, hc1', hr1,
        if_true, Bool.false_eq_true, if_false, and_self, true_and, and_true,
        List.append_eq]
      rw [ssk_go_err p sk hc hr pre _ rest hpre]
      simp [clearStale, hc1, hr1]
    · have hc1' := hc1
      rw [staleCond] at hc1'
      simp only [List.cons_append, yaml_parser_stale_simple_keys_go,
        List.append_eq]
      rw [if_neg hc1']
      rw [ssk_go_err p sk hc hr pre _ rest hpre]
      simp [clearStale, hc1]

/-- Claim C5, amended: the stale-key sweep invalidates a pending
simple-key candidate exactly when it is still possible and the scanner's
position has crossed onto a later line than the candidate's origin or
advanced more than 1024 characters past its start — `mark.index` counts
characters (it advances by one per character regardless of the
character's byte width), not bytes; if no stale candidate is required,
every stale candidate is silently cleared and the sweep succeeds, while
the first stale candidate that is required aborts the sweep with the
scanner error "could not find expected ':'" at the candidate's mark. -/
theorem c5_stale_simple_keys (p : YamlParser) (pre rest : List YamlSimpleKey)
    (sk : YamlSimpleKey) :
    ((∀ sk' ∈ p.simple_keys, ¬(staleCond p sk' ∧ sk'.required = true)) →
      yaml_parser_stale_simple_keys p =
        ({ p with simple_keys := p.simple_keys.map (clearStale p) }, true)) ∧
    (p.simple_keys = pre ++ sk :: rest →
      (∀ sk' ∈ pre, ¬(staleCond p sk' ∧ sk'.required = true)) →
      staleCond p sk → sk.required = true →
      yaml_parser_stale_simple_keys p =
        (set_scanner_error
          { p with simple_keys := pre.map (clearStale p) ++ sk :: rest }
          (some "while scanning a simple key") sk.mark
          "could not find expected ':'", false)) := by
  constructor
  · intro h
    rw [yaml_parser_stale_simple_keys, ssk_go_clean p p.simple_keys [] h]
    simp
  · intro he h hcs hrq
    rw [yaml_parser_stale_simple_keys, he,
      ssk_go_err p sk hcs hrq pre [] rest h]
    simp

/-- Witness for the C5 theorem: a candidate 2000 positions behind the
scanner is cleared silently when optional and raises the scanner error
when required. -/
theorem c5_stale_simple_keys_witness :
    (yaml_parser_stale_simple_keys
        { initParser [] with
          mark := ⟨2000, 0, 2000⟩,
          simple_keys := [⟨0, zeroMark, true, false⟩] } =
      ({ initParser [] with
         mark := ⟨2000, 0, 2000⟩,
         simple_keys := [⟨0, zeroMark, false, false⟩] }, true)) ∧
    (yaml_parser_stale_simple_keys
        { initParser [] with
          mark := ⟨2000, 0, 2000⟩,
          simple_keys := [⟨0, zeroMark, true, true⟩] } =
      (set_scanner_error
        { initParser [] with
          mark := ⟨2000, 0, 2000⟩,
          simple_keys := [⟨0, zeroMark, true, true⟩] }
        (some "while scanning a simple key") zeroMark
        "could not find expected ':'", false)) := by
  constructor
  · exact ((c5_stale_simple_keys
      { initParser [] with
        mark := ⟨2000, 0, 2000⟩,
        simple_keys := [⟨0, zeroMark, true, false⟩] } [] []
      emptySimpleKey).1 (by decide)).trans (by decide)
  · exact ((c5_stale_simple_keys
      { initParser [] with
        mark := ⟨2000, 0, 2000⟩,
        simple_keys := [⟨0, zeroMark, true, true⟩] } [] []
      ⟨0, zeroMark, true, true⟩).2 rfl (by simp) (by decide) rfl).trans
      (by decide)

/-- The resulting parser of a decode step has a buffer of allowed
characters only. -/
def stepBuffersAllowed : DecodeStep → Prop
  | .derr q => AllowedChars q.buffer
  | .incomplete q => AllowedChars q.buffer
  | .dok q => AllowedChars q.buffer

/-- The common commit step only ever appends a character it has checked
against the allowed range. -/
theorem decodeCommit_allowed (p : YamlParser) (w v : Nat)
    (h : AllowedChars p.buffer) : stepBuffersAllowed (decodeCommit p w v) := by
  unfold decodeCommit
  split
  · exact h
  · next hv =>
    exact AllowedChars.snoc p.buffer v h (by simpa using hv)

/-- Decoding one character preserves the allowed-characters invariant of
the working buffer in every branch (UTF-8, UTF-16LE, UTF-16BE, error). -/
theorem decodeOne_allowed (p : YamlParser) (h : AllowedChars p.buffer) :
    stepBuffersAllowed (decodeOne p) := by
  unfold decodeOne
  cases henc : p.encoding <;> simp only [henc]
  case utf8 =>
    repeat' split
    all_goals first
      | exact h
      | exact decodeCommit_allowed p _ _ h
  case utf16le =>
    repeat' split
    all_goals first
      | exact h
      | exact decodeCommit_allowed p _ _ h
  case utf16be =>
    repeat' split
    all_goals first
      | exact h
      | exact decodeCommit_allowed p _ _ h
  case anyEncoding => exact h

/-- The decode loop preserves the allowed-characters invariant of the
working buffer. -/
theorem decodeLoop_allowed :
    ∀ (fuel : Nat) (p p' : YamlParser) (ok : Bool),
      AllowedChars p.buffer → decodeLoop fuel p = some (p', ok) →
      AllowedChars p'.buffer
  | 0, p, p', ok, h, heq => by
    unfold decodeLoop at heq
    split at heq
    · cases heq; exact h
    · cases heq
  | fuel + 1, p, p', ok, h, heq => by
    unfold decodeLoop at heq
    split at heq
    · cases heq; exact h
    · have hs := decodeOne_allowed p h
      cases hstep : decodeOne p with
      | derr q =>
        rw [hstep] at heq hs
        cases heq
        exact hs
      | incomplete q =>
        rw [hstep] at heq hs
        cases heq
        exact hs
      | dok q =>
        rw [hstep] at heq hs
        exact decodeLoop_allowed fuel q p' ok hs heq

/-- Claim C8: running the reader's decode loop on a parser whose raw bytes
pass `yaml_check_utf8` (and whose buffer so far holds only allowed
characters) leaves the buffer a concatenation of UTF-8 encodings of
characters in the allowed set: no control character outside
TAB, LF, CR, NEL, #x20-#x7E, #xA0-#xD7FF, #xE000-#xFFFD,
#x10000-#x10FFFF is ever decoded into the buffer — a disallowed character
aborts decoding with a reader error instead. -/
theorem c8_control_characters (fuel : Nat) (p p' : YamlParser) (ok : Bool)
    (_hutf : yaml_check_utf8 p.raw = true)
    (hbuf : AllowedChars p.buffer)
    (hloop : decodeLoop fuel p = some (p', ok)) :
    AllowedChars p'.buffer :=
  decodeLoop_allowed fuel p p' ok hbuf hloop

/-- Witness for the C8 theorem: decoding the valid two-byte stream `ab`
leaves the buffer with the allowed characters `a`, `b`. -/
theorem c8_control_characters_witness :
    yaml_check_utf8 [97, 98] = true ∧ AllowedChars [97, 98] :=
  ⟨by decide,
   c8_control_characters 3
     { initParser [] with encoding := .utf8, raw := [97, 98], eof := true }
     { initParser [] with
       encoding := .utf8, eof := true, buffer := [97, 98], unread := 2,
       offset := 2 } true
     (by decide) AllowedChars.nil (by decide)⟩

end Myyaml
